import Mathlib

/-! gotests: the `process` and `output` packages.

A shallow embedding of `gotests/process/process.go` and `internal/output/output.go`.

* Go errors are represented by their messages (`String`); a `nil` error is `none`.
* Effects are recorded in a trace of events; the result of an external call
  (file system, writer, generator, template engine, import normaliser) is given by a
  field of an environment record and may depend on the trace recorded so far.
-/

/-! ## The part of `fmt` used by the two packages -/

namespace fmt

/-- Expansion of a format string over its operands, which are already rendered as text
(an error operand is its message). The verbs the program uses are covered: `%v` and `%s`
print the next operand, `%%` prints a percent sign, and a verb without an operand prints
the `MISSING` marker of package fmt. Every other character is copied. -/
def expand : List Char → List String → List Char
  | [], _ => []
  | [c], _ => [c]
  | c :: d :: cs, args =>
    if c = '%' then
      if d = '%' then '%' :: expand cs args
      else if d = 'v' ∨ d = 's' then
        match args with
        | a :: rest => a.data ++ expand cs rest
        | [] => '%' :: '!' :: d :: "(MISSING)".data ++ expand cs []
      else c :: expand (d :: cs) args
    else c :: expand (d :: cs) args

/-- Model of `fmt.Sprintf`. -/
def Sprintf (format : String) (args : List String) : String :=
  String.mk (expand format.data args)

/-- Model of `fmt.Errorf`: the error whose message is the formatted text. -/
def Errorf (format : String) (args : List String) : String :=
  Sprintf format args

/-- Model of `fmt.Sprintln` over text operands: the operands separated by single spaces,
followed by a newline. -/
def Sprintln (args : List String) : String :=
  " ".intercalate args ++ "\n"

end fmt

/-- Model of `strings.Contains`: `sub` occurs in `s` as a contiguous run of characters. -/
def stringsContains (s sub : String) : Prop :=
  sub.data <:+: s.data

instance (s sub : String) : Decidable (stringsContains s sub) := by
  unfold stringsContains
  infer_instance

/-- Byte sequences (`[]byte`). -/
abbrev Bytes := List UInt8

/-! ## Package `process` (`gotests/process/process.go`) -/

namespace process

/-- The constant `newFilePerm` (octal 0644). -/
def newFilePerm : Nat := 0o644

/-- The constant `specifyFlagMessage`. -/
def specifyFlagMessage : String :=
  "Please specify either the -only, -excl, -exported, or -all flag"

/-- The constant `specifyFileMessage`. -/
def specifyFileMessage : String :=
  "Please specify a file or directory containing the source"

/-- The struct `process.Options`. A nil `TemplateData` slice is `none`. -/
structure Options where
  OnlyFuncs : String := ""
  ExclFuncs : String := ""
  ExportedFuncs : Bool := false
  AllFuncs : Bool := false
  PrintInputs : Bool := false
  Subtests : Bool := false
  Parallel : Bool := false
  WriteOutput : Bool := false
  Template : String := ""
  TemplateDir : String := ""
  TemplateParamsPath : String := ""
  TemplateData : Option (List Bytes) := none

/-- The struct `gotests.Options` that `parseOptions` builds. `Re` is the type of compiled
regular expressions (a nil pointer is `none`), `Params` the type of decoded template
parameters. -/
structure GOptions (Re Params : Type) where
  Only : Option Re
  Exclude : Option Re
  Exported : Bool
  PrintInputs : Bool
  Subtests : Bool
  Parallel : Bool
  Template : String
  TemplateDir : String
  TemplateParams : Params
  TemplateData : Option (List Bytes)

/-- The struct `gotests.GeneratedTest`; `Fn` is the type of function descriptors. -/
structure GeneratedTest (Fn : Type) where
  Path : String
  Functions : List Fn
  Output : Bytes

/-- Observable calls made by the package, in program order. -/
inductive Event where
  /-- A call `gotests.GenerateTests(path, opt)`. -/
  | generate (path : String)
  /-- A call `ioutil.WriteFile(path, data, perm)`. -/
  | writeFile (path : String) (data : Bytes) (perm : Nat)
  /-- A line printed on `os.Stderr`. -/
  | stderr (text : String)
  /-- A call `out.Write(data)` on the writer handed to `Run`. -/
  | outWrite (data : Bytes)
  deriving DecidableEq

/-- The collaborators of the package that live outside `process.go`. Calls whose result
depends on the outside world take the trace of events recorded so far. -/
structure Env (Re Fn Params : Type) where
  /-- The function `regexp.Compile`. -/
  Compile : String → Except String Re
  /-- The function `ioutil.ReadFile`. -/
  ReadFile : String → Except String Bytes
  /-- The function `json.Unmarshal` into an empty `map[string]interface{}`. -/
  Unmarshal : Bytes → Except String Params
  /-- The empty map `map[string]interface{}{}`. -/
  emptyParams : Params
  /-- The function `gotests.GenerateTests`. -/
  GenerateTests : List Event → String → GOptions Re Params → Except String (List (GeneratedTest Fn))
  /-- The error, if any, of `ioutil.WriteFile(path, data, perm)`. -/
  WriteFile : List Event → String → Bytes → Nat → Option String
  /-- The error, if any, of `out.Write(data)`. -/
  outWrite : List Event → Bytes → Option String
  /-- The method `(*models.Function).TestName`. -/
  TestName : Fn → String

section
variable {Re Fn Params : Type}

/-- The function `parseRegexp`. -/
def parseRegexp (env : Env Re Fn Params) (s : String) : Except String (Option Re) :=
  if s = "" then .ok none
  else
    match env.Compile s with
    | .error err => .error err
    | .ok re => .ok (some re)

/-- The function `parseOptions`. -/
def parseOptions (env : Env Re Fn Params) (opt : Options) : Except String (GOptions Re Params) :=
  if opt.OnlyFuncs = "" ∧ opt.ExclFuncs = "" ∧ ¬ opt.ExportedFuncs ∧ ¬ opt.AllFuncs then
    .error (fmt.Errorf specifyFlagMessage [])
  else
    match parseRegexp env opt.OnlyFuncs with
    | .error err => .error (fmt.Errorf "Invalid -only regex: %v" [err])
    | .ok onlyRE =>
      match parseRegexp env opt.ExclFuncs with
      | .error err => .error (fmt.Errorf "Invalid -excl regex: %v" [err])
      | .ok exclRE =>
        let jfile := opt.TemplateParamsPath
        let params : Except String Params :=
          if jfile ≠ "" then
            match env.ReadFile jfile with
            | .error err => .error (fmt.Errorf "Failed to read from %s ,err %s" [jfile, err])
            | .ok buf =>
              match env.Unmarshal buf with
              | .error err => .error (fmt.Errorf "Failed to umarshal %s er %s" [jfile, err])
              | .ok m => .ok m
          else .ok env.emptyParams
        match params with
        | .error err => .error err
        | .ok templateParams =>
          .ok {
            Only := onlyRE
            Exclude := exclRE
            Exported := opt.ExportedFuncs
            PrintInputs := opt.PrintInputs
            Subtests := opt.Subtests
            Parallel := opt.Parallel
            Template := opt.Template
            TemplateDir := opt.TemplateDir
            TemplateParams := templateParams
            TemplateData := opt.TemplateData }

/-- The function `outputTest`. Returns the error (if any) and the extended trace. -/
def outputTest (env : Env Re Fn Params) (t : GeneratedTest Fn) (writeOutput : Bool)
    (tr : List Event) : Option String × List Event :=
  let written : Option String × List Event :=
    if writeOutput then
      (env.WriteFile tr t.Path t.Output newFilePerm,
        tr ++ [Event.writeFile t.Path t.Output newFilePerm])
    else (none, tr)
  match written with
  | (some err, tr1) => (some (fmt.Errorf "%s (-w): %v" [t.Path, err]), tr1)
  | (none, tr1) =>
    let tr2 := tr1 ++ t.Functions.map
      (fun f => Event.stderr (fmt.Sprintln ["Generated", env.TestName f]))
    if ¬ writeOutput then
      (env.outWrite tr2 t.Output, tr2 ++ [Event.outWrite t.Output])
    else (none, tr2)

/-- The loop `for _, t := range gts` of `generateTests`. -/
def outputTests (env : Env Re Fn Params) (writeOutput : Bool) :
    List (GeneratedTest Fn) → List Event → Option String × List Event
  | [], tr => (none, tr)
  | t :: rest, tr =>
    match outputTest env t writeOutput tr with
    | (some err, tr1) => (some err, tr1)
    | (none, tr1) => outputTests env writeOutput rest tr1

/-- The function `generateTests`. -/
def generateTests (env : Env Re Fn Params) (path : String) (writeOutput : Bool)
    (opt : GOptions Re Params) (tr : List Event) : Option String × List Event :=
  let tr1 := tr ++ [Event.generate path]
  match env.GenerateTests tr path opt with
  | .error err => (some (fmt.Errorf "generating tests: %v" [err]), tr1)
  | .ok gts =>
    if gts.length = 0 then (some (fmt.Errorf "no tests generated" []), tr1)
    else outputTests env writeOutput gts tr1

/-- The loop `for _, path := range args` of `Run`. -/
def runTargets (env : Env Re Fn Params) (writeOutput : Bool) (opt : GOptions Re Params) :
    List String → List Event → Option String × List Event
  | [], tr => (none, tr)
  | path :: rest, tr =>
    match generateTests env path writeOutput opt tr with
    | (some err, tr1) => (some (fmt.Errorf "%s: %v" [path, err]), tr1)
    | (none, tr1) => runTargets env writeOutput opt rest tr1

/-- The function `Run`. A nil `opts` is `none`; the result is the returned error (if any)
and the trace extended by the calls made. -/
def Run (env : Env Re Fn Params) (args : List String) (opts : Option Options)
    (tr : List Event) : Option String × List Event :=
  let opts : Options := match opts with
    | none => {}
    | some o => o
  match parseOptions env opts with
  | .error err => (some (fmt.Errorf "parsing flags: %v" [err]), tr)
  | .ok opt =>
    if args.length = 0 then (some (fmt.Errorf specifyFileMessage []), tr)
    else runTargets env opts.WriteOutput opt args tr

end

end process

/-! ## Reading a trace of `process` -/

namespace process

/-- The targets on which the generator was invoked, in order. -/
def generatorCalls : List Event → List String
  | [] => []
  | Event.generate path :: rest => path :: generatorCalls rest
  | _ :: rest => generatorCalls rest

/-- The arguments of the `out.Write` calls, in order. -/
def outWrites : List Event → List Bytes
  | [] => []
  | Event.outWrite data :: rest => data :: outWrites rest
  | _ :: rest => outWrites rest

/-- The arguments of the `ioutil.WriteFile` calls, in order. -/
def fileWrites : List Event → List (String × Bytes × Nat)
  | [] => []
  | Event.writeFile path data perm :: rest => (path, data, perm) :: fileWrites rest
  | _ :: rest => fileWrites rest

section
variable {Re Fn Params : Type}

/-- The events of one generated test that is output completely: the file write in write
mode, one `Generated` line per function, and the write to `out` in stream mode. -/
def outputEvents (env : Env Re Fn Params) (writeOutput : Bool) (t : GeneratedTest Fn) :
    List Event :=
  (if writeOutput then [Event.writeFile t.Path t.Output newFilePerm] else []) ++
    t.Functions.map (fun f => Event.stderr ("Generated " ++ env.TestName f ++ "\n")) ++
    (if writeOutput then [] else [Event.outWrite t.Output])

/-- The targets of a list are processed one after the other, `generateTests` returning no
error on any of them; the relation links the trace before to the trace after. -/
inductive Succeeds (env : Env Re Fn Params) (writeOutput : Bool) (opt : GOptions Re Params) :
    List String → List Event → List Event → Prop where
  | nil (tr : List Event) : Succeeds env writeOutput opt [] tr tr
  | cons {path : String} {rest : List String} {tr tr1 tr2 : List Event} :
      generateTests env path writeOutput opt tr = (none, tr1) →
      Succeeds env writeOutput opt rest tr1 tr2 →
      Succeeds env writeOutput opt (path :: rest) tr tr2

/-- The trace records, for each target of the list in order, one generator call that
returned a non-empty list of tests followed by the complete output of each of them. -/
inductive FullyOutput (env : Env Re Fn Params) (writeOutput : Bool) (opt : GOptions Re Params) :
    List String → List Event → List Event → Prop where
  | nil (tr : List Event) : FullyOutput env writeOutput opt [] tr tr
  | cons {path : String} {rest : List String} {tr tr2 : List Event}
      {gts : List (GeneratedTest Fn)} :
      env.GenerateTests tr path opt = .ok gts → gts ≠ [] →
      FullyOutput env writeOutput opt rest
        (tr ++ Event.generate path :: gts.flatMap (outputEvents env writeOutput)) tr2 →
      FullyOutput env writeOutput opt (path :: rest) tr tr2

/-- The four ways a target can fail with error `e` in `generateTests`: the generator fails
and `e` is its error after "generating tests: "; the generator returns no test and `e` is
"no tests generated"; in write mode the file of a generated test cannot be written and `e`
is the file path, " (-w): " and the write error; in stream mode `out.Write` fails on the
output of a generated test and `e` is its error. -/
def TargetError (env : Env Re Fn Params) (writeOutput : Bool) (opt : GOptions Re Params)
    (path : String) (tr : List Event) (e : String) : Prop :=
  (∃ ge, env.GenerateTests tr path opt = .error ge ∧ e = "generating tests: " ++ ge) ∨
  (env.GenerateTests tr path opt = .ok [] ∧ e = "no tests generated") ∨
  (∃ gts t tr0, env.GenerateTests tr path opt = .ok gts ∧ t ∈ gts ∧
    ((writeOutput = true ∧ ∃ we, env.WriteFile tr0 t.Path t.Output newFilePerm = some we ∧
        e = t.Path ++ " (-w): " ++ we) ∨
      (writeOutput = false ∧ env.outWrite tr0 t.Output = some e)))

end

end process

/-! ## A concrete environment for `process` -/

namespace process

/-- A small concrete environment: `??` is the only pattern that does not compile, the
generator knows the single file `testdata/foobar.go` holding the function `Foo`, finds
nothing when the include pattern is `FooBar`, and every write succeeds. -/
def demoEnv : Env String String Unit where
  Compile := fun s =>
    if s = "??" then
      .error "error parsing regexp: missing argument to repetition operator: `??`"
    else .ok s
  ReadFile := fun _ => .error "no such file or directory"
  Unmarshal := fun _ => .ok ()
  emptyParams := ()
  GenerateTests := fun _ path opt =>
    if path = "testdata/foobar.go" then
      if opt.Only = some "FooBar" then .ok []
      else .ok [{ Path := "testdata/foobar_test.go", Functions := ["Foo"], Output := [112, 10] }]
    else .error "no such file or directory"
  WriteFile := fun _ _ _ _ => none
  outWrite := fun _ _ => none
  TestName := fun f => "Test" ++ f

/-- The options `parseOptions` builds from `Options{AllFuncs: true}` in `demoEnv`. -/
def demoOpt : GOptions String Unit where
  Only := none
  Exclude := none
  Exported := false
  PrintInputs := false
  Subtests := false
  Parallel := false
  Template := ""
  TemplateDir := ""
  TemplateParams := ()
  TemplateData := none

/-- The trace of `demoEnv` after `testdata/foobar.go` is processed in stream mode. -/
def demoTrace : List Event :=
  [Event.generate "testdata/foobar.go", Event.stderr "Generated TestFoo\n",
    Event.outWrite [112, 10]]

end process

/-! ## Package `output` (`internal/output/output.go`) -/

namespace output

/-- The outcome of a call: a normal return, or a run-time panic. -/
inductive Ret (α : Type) where
  | ret (a : α)
  | panic (msg : String)

/-- The message of the run-time panic raised by a field access through a nil pointer. -/
def nilDereference : String :=
  "runtime error: invalid memory address or nil pointer dereference"

/-- The struct `output.Options`; `Params` is the type of `map[string]interface{}` values.
A nil `TemplateData` slice is `none`. -/
structure Options (Params : Type) where
  PrintInputs : Bool
  Subtests : Bool
  Parallel : Bool
  Template : String
  TemplateDir : String
  TemplateParams : Params
  TemplateData : Option (List Bytes)

/-- Observable calls made by the package, in program order. `Tpl` is the type of the
template registration held by package render, `Hdr` and `Fn` are the types of
`models.Header` and `models.Function`. A render event carries the registration in effect
when the call is made. -/
inductive Event (Tpl Hdr Fn : Type) where
  /-- A call `render.LoadCustomTemplates(dir)`. -/
  | loadCustomTemplates (dir : String)
  /-- A call `render.LoadCustomTemplatesName(name)`. -/
  | loadCustomTemplatesName (name : String)
  /-- A call `render.LoadFromData(data)`. -/
  | loadFromData (data : List Bytes)
  /-- A successful `ioutil.TempFile` call, with the name of the file created. -/
  | tempFile (name : String)
  /-- A call `render.Header(b, head)`. -/
  | renderHeader (tpl : Tpl) (head : Hdr)
  /-- A call `render.TestFunction(b, fun, ...)`. -/
  | renderTestFunction (tpl : Tpl) (fn : Fn)
  /-- A call `imports.Process(filename, src, nil)`. -/
  | importsProcess (filename : String) (src : Bytes)
  /-- Bytes printed on standard output. -/
  | stdout (data : Bytes)
  /-- The deferred call `os.Remove(name)`. -/
  | remove (name : String)
  /-- The deferred call `tf.Close()` on the file of that name. -/
  | close (name : String)

/-- The process-wide state: the template registration of package render and the trace. -/
structure State (Tpl Hdr Fn : Type) where
  templates : Tpl
  trace : List (Event Tpl Hdr Fn)

/-- Append one event to the trace. -/
def State.log {Tpl Hdr Fn : Type} (st : State Tpl Hdr Fn) (e : Event Tpl Hdr Fn) :
    State Tpl Hdr Fn :=
  { st with trace := st.trace ++ [e] }

/-- The collaborators of the package that live outside `output.go`. The loaders of package
render map the registration in effect to the new one; the two that return an error also
give it. The renderers give the bytes they write and their error. -/
structure Env (Tpl Hdr Fn Params : Type) where
  /-- The function `render.LoadCustomTemplates`. -/
  LoadCustomTemplates : Tpl → String → Tpl × Option String
  /-- The function `render.LoadCustomTemplatesName`. -/
  LoadCustomTemplatesName : Tpl → String → Tpl × Option String
  /-- The function `render.LoadFromData`. -/
  LoadFromData : Tpl → List Bytes → Tpl
  /-- The function `render.Header`. -/
  Header : Tpl → Hdr → Bytes × Option String
  /-- The function `render.TestFunction`. -/
  TestFunction : Tpl → Fn → Bool → Bool → Bool → Params → Bytes × Option String
  /-- The function `ioutil.TempFile("", "gotests_")`: the name of the file created. -/
  TempFile : List (Event Tpl Hdr Fn) → Except String String
  /-- The function `imports.Process(filename, src, nil)`. -/
  importsProcess : List (Event Tpl Hdr Fn) → String → Bytes → Except String Bytes
  /-- The function `os.Getenv`. -/
  Getenv : String → String

/-- An `io.Writer`: the concatenation of the arguments of the `Write` calls made so far,
and the error, if any, that a call reports given those bytes and its argument. -/
structure Writer where
  written : Bytes
  failure : Bytes → Bytes → Option String

/-- The method `Write` of an `io.Writer`. -/
def Writer.Write (w : Writer) (p : Bytes) : Writer × Option String :=
  ({ w with written := w.written ++ p }, w.failure w.written p)

/-- A fresh `bytes.Buffer`, whose `Write` never reports an error. -/
def bytesBuffer : Writer :=
  { written := [], failure := fun _ _ => none }

/-- A `bufio.Writer`, modelled with an unbounded buffer: the bytes written to it are held
until `Flush` passes them to the underlying writer. -/
structure BufWriter where
  buf : Bytes
  wr : Writer

/-- The function `bufio.NewWriter`. -/
def NewWriter (w : Writer) : BufWriter :=
  { buf := [], wr := w }

/-- The method `Write` of a `bufio.Writer`. -/
def BufWriter.Write (b : BufWriter) (p : Bytes) : BufWriter :=
  { b with buf := b.buf ++ p }

/-- The method `Flush` of a `bufio.Writer`: nothing is written when the buffer is empty. -/
def BufWriter.Flush (b : BufWriter) : BufWriter × Option String :=
  if b.buf.isEmpty then (b, none)
  else
    let r := b.wr.Write b.buf
    ({ buf := [], wr := r.1 }, r.2)

section
variable {Tpl Hdr Fn Params : Type}

/-- The call `render.TestFunction(b, fun, opt.PrintInputs, opt.Subtests, opt.Parallel,
opt.TemplateParams)` of `writeTests`: evaluating the arguments through a nil `opt` panics. -/
def callTestFunction (env : Env Tpl Hdr Fn Params) (tpl : Tpl) (opt : Option (Options Params))
    (fn : Fn) : Ret (Bytes × Option String) :=
  match opt with
  | none => .panic nilDereference
  | some o => .ret (env.TestFunction tpl fn o.PrintInputs o.Subtests o.Parallel o.TemplateParams)

/-- The loop `for _, fun := range funcs` of `writeTests`. -/
def renderFuncs (env : Env Tpl Hdr Fn Params) (opt : Option (Options Params)) :
    List Fn → BufWriter → State Tpl Hdr Fn → Ret (Option String) × BufWriter × State Tpl Hdr Fn
  | [], b, st => (.ret none, b, st)
  | fn :: rest, b, st =>
    match callTestFunction env st.templates opt fn with
    | .panic msg => (.panic msg, b, st)
    | .ret (bytes, err) =>
      let b1 := b.Write bytes
      let st1 := st.log (Event.renderTestFunction st.templates fn)
      match err with
      | some e => (.ret (some (fmt.Errorf "render.TestFunction: %v" [e])), b1, st1)
      | none => renderFuncs env opt rest b1 st1

/-- The function `writeTests`. Returns the error (or panic), the writer `w` after the call
and the state. -/
def writeTests (env : Env Tpl Hdr Fn Params) (w : Writer) (head : Hdr) (funcs : List Fn)
    (opt : Option (Options Params)) (st : State Tpl Hdr Fn) :
    Ret (Option String) × Writer × State Tpl Hdr Fn :=
  let b := NewWriter w
  let h := env.Header st.templates head
  let b1 := b.Write h.1
  let st1 := st.log (Event.renderHeader st.templates head)
  match h.2 with
  | some e => (.ret (some (fmt.Errorf "render.Header: %v" [e])), b1.wr, st1)
  | none =>
    match renderFuncs env opt funcs b1 st1 with
    | (.ret none, b2, st2) =>
      let f := b2.Flush
      (.ret f.2, f.1.wr, st2)
    | (r, b2, st2) => (r, b2.wr, st2)

/-- Lines 28 to 40 of `Process`: the choice and the call of a template loader. Each
condition of the Go chain starts with `opt != nil`. -/
def loadTemplates (env : Env Tpl Hdr Fn Params) (opt : Option (Options Params))
    (st : State Tpl Hdr Fn) : Option String × State Tpl Hdr Fn :=
  match opt with
  | none => (none, st)
  | some o =>
    if o.TemplateDir ≠ "" then
      let r := env.LoadCustomTemplates st.templates o.TemplateDir
      let st1 : State Tpl Hdr Fn :=
        { templates := r.1, trace := st.trace ++ [Event.loadCustomTemplates o.TemplateDir] }
      match r.2 with
      | some err => (some (fmt.Errorf "loading custom templates: %v" [err]), st1)
      | none => (none, st1)
    else if o.Template ≠ "" then
      let r := env.LoadCustomTemplatesName st.templates o.Template
      let st1 : State Tpl Hdr Fn :=
        { templates := r.1, trace := st.trace ++ [Event.loadCustomTemplatesName o.Template] }
      match r.2 with
      | some err => (some (fmt.Errorf "loading custom templates of name: %v" [err]), st1)
      | none => (none, st1)
    else
      match o.TemplateData with
      | some data =>
        (none, { templates := env.LoadFromData st.templates data,
                 trace := st.trace ++ [Event.loadFromData data] })
      | none => (none, st)

/-- The deferred calls of `Process`, run in reverse order of their `defer` statements. -/
def deferred (name : String) (st : State Tpl Hdr Fn) : State Tpl Hdr Fn :=
  (st.log (Event.remove name)).log (Event.close name)

/-- The hint appended to the error of a failed `imports.Process`. -/
def importsFormat : String :=
  "imports.Process: %v\nYou can set DEBUG_GENERATED=1 to print to stdout the intermediate generated code before it is gofmt'd."

/-- The function `Process`. Returns the pair of results (or a panic) and the state. -/
def Process (env : Env Tpl Hdr Fn Params) (head : Hdr) (funcs : List Fn)
    (opt : Option (Options Params)) (st : State Tpl Hdr Fn) :
    Ret (Option Bytes × Option String) × State Tpl Hdr Fn :=
  match loadTemplates env opt st with
  | (some err, st1) => (.ret (none, some err), st1)
  | (none, st1) =>
    match env.TempFile st1.trace with
    | .error err => (.ret (none, some (fmt.Errorf "ioutil.TempFile: %v" [err])), st1)
    | .ok name =>
      let st2 := st1.log (Event.tempFile name)
      match writeTests env bytesBuffer head funcs opt st2 with
      | (.panic msg, _, st3) => (.panic msg, deferred name st3)
      | (.ret (some err), _, st3) => (.ret (none, some err), deferred name st3)
      | (.ret none, b, st3) =>
        let st4 := st3.log (Event.importsProcess name b.written)
        match env.importsProcess st3.trace name b.written with
        | .error err =>
          let st5 :=
            if env.Getenv "DEBUG_GENERATED" ≠ "" then st4.log (Event.stdout (b.written ++ [10]))
            else st4
          (.ret (none, some (fmt.Errorf importsFormat [err])), deferred name st5)
        | .ok out => (.ret (some out, none), deferred name st4)

end

end output

/-! ## Reading a trace of `output` -/

namespace output

/-- The template selection of the specification: a tagged variant over the default set, a
named set, a directory and embedded data. -/
inductive Selection where
  | Default
  | NamedSet (name : String)
  | Directory (path : String)
  | EmbeddedData (blobs : List Bytes)

section
variable {Tpl Hdr Fn Params : Type}

/-- The selection the specification resolves from the configuration fields, by the
precedence Directory, then NamedSet, then EmbeddedData, then Default. -/
def selection (opt : Option (Options Params)) : Selection :=
  match opt with
  | none => .Default
  | some o =>
    if o.TemplateDir ≠ "" then .Directory o.TemplateDir
    else if o.Template ≠ "" then .NamedSet o.Template
    else
      match o.TemplateData with
      | some blobs => .EmbeddedData blobs
      | none => .Default

/-- The loader calls the specification assigns to a selection: one for each variant but
Default, which has none. -/
def loaderOf : Selection → List (Event Tpl Hdr Fn)
  | .Default => []
  | .NamedSet name => [Event.loadCustomTemplatesName name]
  | .Directory path => [Event.loadCustomTemplates path]
  | .EmbeddedData blobs => [Event.loadFromData blobs]

/-- Whether an event is a call of a template loader. -/
def Event.isLoader : Event Tpl Hdr Fn → Bool
  | .loadCustomTemplates _ => true
  | .loadCustomTemplatesName _ => true
  | .loadFromData _ => true
  | _ => false

/-- Whether an event is a call of a renderer. -/
def Event.isRender : Event Tpl Hdr Fn → Bool
  | .renderHeader _ _ => true
  | .renderTestFunction _ _ => true
  | _ => false

/-- The registration in effect at a render call. -/
def Event.renderTpl : Event Tpl Hdr Fn → Option Tpl
  | .renderHeader tpl _ => some tpl
  | .renderTestFunction tpl _ => some tpl
  | _ => none

/-- The bytes of a print on standard output. -/
def Event.stdoutData : Event Tpl Hdr Fn → Option Bytes
  | .stdout data => some data
  | _ => none

/-- The loader calls of a trace, in order. -/
def loaderCalls (tr : List (Event Tpl Hdr Fn)) : List (Event Tpl Hdr Fn) :=
  tr.filter Event.isLoader

/-- The render calls of a trace, in order. -/
def renderCalls (tr : List (Event Tpl Hdr Fn)) : List (Event Tpl Hdr Fn) :=
  tr.filter Event.isRender

/-- The registrations in effect at the render calls of a trace, in order. -/
def renderTemplates (tr : List (Event Tpl Hdr Fn)) : List Tpl :=
  tr.filterMap Event.renderTpl

/-- What a trace prints on standard output, in order. -/
def stdoutWrites (tr : List (Event Tpl Hdr Fn)) : List Bytes :=
  tr.filterMap Event.stdoutData

/-- The bytes `render.TestFunction` writes for one descriptor in `writeTests`. -/
def functionBlock (env : Env Tpl Hdr Fn Params) (tpl : Tpl) (opt : Option (Options Params))
    (fn : Fn) : Bytes :=
  match callTestFunction env tpl opt fn with
  | .ret (bytes, _) => bytes
  | .panic _ => []

/-- The registration in effect after the loader of a selection has run on a registration;
Default runs no loader and leaves it as it is. -/
def loaded (env : Env Tpl Hdr Fn Params) : Selection → Tpl → Tpl
  | .Default, tpl => tpl
  | .NamedSet name, tpl => (env.LoadCustomTemplatesName tpl name).1
  | .Directory path, tpl => (env.LoadCustomTemplates tpl path).1
  | .EmbeddedData blobs, tpl => env.LoadFromData tpl blobs

/-- Every loader replaces the registration: what it registers does not depend on the
registration in effect before the call. -/
def Replaces (env : Env Tpl Hdr Fn Params) : Prop :=
  (∀ t t2 dir, (env.LoadCustomTemplates t dir).1 = (env.LoadCustomTemplates t2 dir).1) ∧
  (∀ t t2 name, (env.LoadCustomTemplatesName t name).1 = (env.LoadCustomTemplatesName t2 name).1) ∧
  (∀ t t2 data, env.LoadFromData t data = env.LoadFromData t2 data)

/-- No event of the list is a loader call, and every render call in it is made under the
registration `tpl`. -/
def Quiet (tpl : Tpl) (new : List (Event Tpl Hdr Fn)) : Prop :=
  ∀ e ∈ new, e.isLoader = false ∧ ∀ t, e.renderTpl = some t → t = tpl

/-- Every event of the list is a render call made under the registration `tpl`. -/
def RenderOnly (tpl : Tpl) (new : List (Event Tpl Hdr Fn)) : Prop :=
  ∀ e ∈ new, (∃ head, e = Event.renderHeader tpl head) ∨
    (∃ fn, e = Event.renderTestFunction tpl fn)

end

/-- A list rearranged by a list of positions: the entry at each position, in the order of
the positions. -/
def reorder {α : Type} (idx : List Nat) (l : List α) : List α :=
  idx.filterMap (fun i => l[i]?)

/-- A small concrete environment, whose loaders behave as the specification describes the
template engine: loading registers the set loaded in the process-wide registration. The
registration is the name of the set registered; each loader replaces it, and the
directory `missing` cannot be loaded. The header renders to
one byte that tells the default registration from the others, and the function `Bad`
renders to a block that the import normaliser rejects. -/
def demoEnv : Env String String String Unit where
  LoadCustomTemplates := fun _ dir =>
    if dir = "missing" then ("", some "no such file or directory") else ("dir:" ++ dir, none)
  LoadCustomTemplatesName := fun _ name => ("name:" ++ name, none)
  LoadFromData := fun _ _ => "data"
  Header := fun tpl _ => if tpl = "default" then ([104], none) else ([72], none)
  TestFunction := fun _ fn _ _ _ _ =>
    if fn = "Add" then ([65], none) else if fn = "Bad" then ([66], none) else ([67], none)
  TempFile := fun _ => .ok "/tmp/gotests_1"
  importsProcess := fun _ _ src => if 66 ∈ src then .error "expected declaration" else .ok src
  Getenv := fun _ => ""

/-- The environment `demoEnv` with the variable `DEBUG_GENERATED` set to `1`. -/
def demoEnvDebug : Env String String String Unit :=
  { demoEnv with Getenv := fun name => if name = "DEBUG_GENERATED" then "1" else "" }

/-- Options that select nothing: the Default template set. -/
def demoOptions : Options Unit where
  PrintInputs := false
  Subtests := false
  Parallel := false
  Template := ""
  TemplateDir := ""
  TemplateParams := ()
  TemplateData := none

/-- The state of a fresh process: the default registration and an empty trace. -/
def demoState : State String String String :=
  { templates := "default", trace := [] }

/-- Options that select the directory `custom`. -/
def demoDirOptions : Options Unit :=
  { demoOptions with TemplateDir := "custom" }

/-- Options that select the named set `testify`. -/
def demoNamedOptions : Options Unit :=
  { demoOptions with Template := "testify" }

/-- Options with both the directory `missing` and the named set `testify`. -/
def demoMissingOptions : Options Unit :=
  { demoOptions with TemplateDir := "missing", Template := "testify" }

/-- The state a first invocation with `demoDirOptions` leaves in a fresh process. -/
def demoAfterDir : State String String String :=
  (Process demoEnv "foo" ["Add"] (some demoDirOptions) demoState).2

/-- The buffer after the header and the function `Bad` are composed in `demoEnv`. -/
def demoBuffer : Writer :=
  { written := [104, 66], failure := fun _ _ => none }

/-- The state after the header and the function `Bad` are composed in a fresh process. -/
def demoComposed : State String String String :=
  { templates := "default",
    trace := [Event.tempFile "/tmp/gotests_1", Event.renderHeader "default" "foo",
      Event.renderTestFunction "default" "Bad"] }

end output

/-! ## Theorems -/

theorem stringsContains_append_right (a b : String) : stringsContains (a ++ b) b := by
  unfold stringsContains
  rw [String.data_append]
  exact (List.suffix_append _ _).isInfix

namespace process

theorem Errorf_specifyFlagMessage : fmt.Errorf specifyFlagMessage [] = specifyFlagMessage := by
  decide

theorem Errorf_specifyFileMessage : fmt.Errorf specifyFileMessage [] = specifyFileMessage := by
  decide

theorem Errorf_parsing_flags (e : String) :
    fmt.Errorf "parsing flags: %v" [e] = "parsing flags: " ++ e := by
  apply String.ext
  simp [fmt.Errorf, fmt.Sprintf, fmt.expand]

theorem Errorf_invalid_only (e : String) :
    fmt.Errorf "Invalid -only regex: %v" [e] = "Invalid -only regex: " ++ e := by
  apply String.ext
  simp [fmt.Errorf, fmt.Sprintf, fmt.expand]

theorem Errorf_invalid_excl (e : String) :
    fmt.Errorf "Invalid -excl regex: %v" [e] = "Invalid -excl regex: " ++ e := by
  apply String.ext
  simp [fmt.Errorf, fmt.Sprintf, fmt.expand]

section
variable {Re Fn Params : Type}

/-- C1: when none of OnlyFuncs, ExclFuncs, ExportedFuncs, AllFuncs is set (also for nil
options, which `Run` replaces by the zero value), `Run` returns, for every argument list,
an error whose message contains `specifyFlagMessage`, and the trace of calls is unchanged:
the generator is invoked on no target and nothing is written to `out`. -/
theorem C1_run_without_selector (env : Env Re Fn Params) (args : List String)
    (opts : Option Options) (tr : List Event)
    (h : ∀ o, opts = some o →
      o.OnlyFuncs = "" ∧ o.ExclFuncs = "" ∧ o.ExportedFuncs = false ∧ o.AllFuncs = false) :
    ∃ msg, Run env args opts tr = (some msg, tr) ∧ stringsContains msg specifyFlagMessage := by
  refine ⟨"parsing flags: " ++ specifyFlagMessage, ?_, stringsContains_append_right _ _⟩
  cases opts with
  | none => simp [Run, parseOptions, Errorf_specifyFlagMessage, Errorf_parsing_flags]
  | some o =>
    obtain ⟨h1, h2, h3, h4⟩ := h o rfl
    simp [Run, parseOptions, h1, h2, h3, h4, Errorf_specifyFlagMessage, Errorf_parsing_flags]

/-- Witness of C1 on the zero options and on nil options. -/
theorem C1_run_without_selector_witness :
    (∃ msg, Run demoEnv ["testdata/foobar.go"] (some {}) [] = (some msg, []) ∧
      stringsContains msg specifyFlagMessage) ∧
    (∃ msg, Run demoEnv [] none [] = (some msg, []) ∧
      stringsContains msg specifyFlagMessage) :=
  ⟨C1_run_without_selector demoEnv ["testdata/foobar.go"] (some {}) []
      (by intro o ho; cases ho; exact ⟨rfl, rfl, rfl, rfl⟩),
    C1_run_without_selector demoEnv [] none [] (by intro o ho; cases ho)⟩

end

theorem Errorf_no_tests : fmt.Errorf "no tests generated" [] = "no tests generated" := by
  decide

theorem Errorf_target (path e : String) :
    fmt.Errorf "%s: %v" [path, e] = path ++ ": " ++ e := by
  apply String.ext
  simp [fmt.Errorf, fmt.Sprintf, fmt.expand]

theorem Errorf_generating (e : String) :
    fmt.Errorf "generating tests: %v" [e] = "generating tests: " ++ e := by
  apply String.ext
  simp [fmt.Errorf, fmt.Sprintf, fmt.expand]

theorem Errorf_write (path e : String) :
    fmt.Errorf "%s (-w): %v" [path, e] = path ++ " (-w): " ++ e := by
  apply String.ext
  simp [fmt.Errorf, fmt.Sprintf, fmt.expand]

theorem Sprintln_generated (name : String) :
    fmt.Sprintln ["Generated", name] = "Generated " ++ name ++ "\n" := by
  apply String.ext
  simp [fmt.Sprintln, String.intercalate, String.intercalate.go]

section
variable {Re Fn Params : Type}

theorem parseOptions_only_error (env : Env Re Fn Params) (opts : Options) (cerr : String)
    (h1 : opts.OnlyFuncs ≠ "") (h2 : env.Compile opts.OnlyFuncs = .error cerr) :
    parseOptions env opts = .error ("Invalid -only regex: " ++ cerr) := by
  simp [parseOptions, parseRegexp, h1, h2, Errorf_invalid_only]

theorem parseOptions_excl_error (env : Env Re Fn Params) (opts : Options) (cerr : String)
    (h0 : opts.OnlyFuncs = "" ∨ ∃ re, env.Compile opts.OnlyFuncs = .ok re)
    (h1 : opts.ExclFuncs ≠ "") (h2 : env.Compile opts.ExclFuncs = .error cerr) :
    parseOptions env opts = .error ("Invalid -excl regex: " ++ cerr) := by
  rcases h0 with h0 | ⟨re, h0⟩
  · simp [parseOptions, parseRegexp, h0, h1, h2, Errorf_invalid_excl]
  · by_cases hO : opts.OnlyFuncs = ""
    · simp [parseOptions, parseRegexp, hO, h1, h2, Errorf_invalid_excl]
    · simp [parseOptions, parseRegexp, hO, h0, h1, h2, Errorf_invalid_excl]

/-- C2: a non-empty OnlyFuncs that does not compile makes `Run` return an error whose
message contains "Invalid -only regex: " followed by the compiler error; when OnlyFuncs is
empty or compiles, a non-empty ExclFuncs that does not compile makes it return an error
whose message contains "Invalid -excl regex: " followed by the compiler error. In both
cases the trace is unchanged, so no target is processed. -/
theorem C2_run_invalid_pattern (env : Env Re Fn Params) (args : List String)
    (opts : Options) (tr : List Event) (cerr : String) :
    (opts.OnlyFuncs ≠ "" → env.Compile opts.OnlyFuncs = .error cerr →
      ∃ msg, Run env args (some opts) tr = (some msg, tr) ∧
        stringsContains msg ("Invalid -only regex: " ++ cerr)) ∧
    ((opts.OnlyFuncs = "" ∨ ∃ re, env.Compile opts.OnlyFuncs = .ok re) →
      opts.ExclFuncs ≠ "" → env.Compile opts.ExclFuncs = .error cerr →
      ∃ msg, Run env args (some opts) tr = (some msg, tr) ∧
        stringsContains msg ("Invalid -excl regex: " ++ cerr)) := by
  constructor
  · intro h1 h2
    refine ⟨"parsing flags: " ++ ("Invalid -only regex: " ++ cerr), ?_,
      stringsContains_append_right _ _⟩
    simp [Run, parseOptions_only_error env opts cerr h1 h2, Errorf_parsing_flags]
  · intro h0 h1 h2
    refine ⟨"parsing flags: " ++ ("Invalid -excl regex: " ++ cerr), ?_,
      stringsContains_append_right _ _⟩
    simp [Run, parseOptions_excl_error env opts cerr h0 h1 h2, Errorf_parsing_flags]

/-- Witness of C2 on the pattern `??`, as include pattern and as exclude pattern. -/
theorem C2_run_invalid_pattern_witness :
    (∃ msg, Run demoEnv ["testdata/foobar.go"] (some { OnlyFuncs := "??" }) [] = (some msg, []) ∧
      stringsContains msg ("Invalid -only regex: " ++
        "error parsing regexp: missing argument to repetition operator: `??`")) ∧
    (∃ msg, Run demoEnv ["testdata/foobar.go"] (some { ExclFuncs := "??" }) [] = (some msg, []) ∧
      stringsContains msg ("Invalid -excl regex: " ++
        "error parsing regexp: missing argument to repetition operator: `??`")) :=
  ⟨(C2_run_invalid_pattern demoEnv ["testdata/foobar.go"] { OnlyFuncs := "??" } []
      "error parsing regexp: missing argument to repetition operator: `??`").1
      (by decide) (by rfl),
    (C2_run_invalid_pattern demoEnv ["testdata/foobar.go"] { ExclFuncs := "??" } []
      "error parsing regexp: missing argument to repetition operator: `??`").2
      (Or.inl rfl) (by decide) (by rfl)⟩

theorem parseOptions_ok (env : Env Re Fn Params) (opts : Options)
    (hsel : ¬ (opts.OnlyFuncs = "" ∧ opts.ExclFuncs = "" ∧ opts.ExportedFuncs = false ∧
      opts.AllFuncs = false))
    (honly : opts.OnlyFuncs = "" ∨ ∃ re, env.Compile opts.OnlyFuncs = .ok re)
    (hexcl : opts.ExclFuncs = "" ∨ ∃ re, env.Compile opts.ExclFuncs = .ok re)
    (hparams : opts.TemplateParamsPath = "" ∨
      ∃ buf m, env.ReadFile opts.TemplateParamsPath = .ok buf ∧ env.Unmarshal buf = .ok m) :
    ∃ opt, parseOptions env opts = .ok opt := by
  have h1 : ∃ r, parseRegexp env opts.OnlyFuncs = .ok r := by
    rcases honly with h | ⟨re, h⟩
    · exact ⟨none, by simp [parseRegexp, h]⟩
    · by_cases h0 : opts.OnlyFuncs = ""
      · exact ⟨none, by simp [parseRegexp, h0]⟩
      · exact ⟨some re, by simp [parseRegexp, h0, h]⟩
  have h2 : ∃ r, parseRegexp env opts.ExclFuncs = .ok r := by
    rcases hexcl with h | ⟨re, h⟩
    · exact ⟨none, by simp [parseRegexp, h]⟩
    · by_cases h0 : opts.ExclFuncs = ""
      · exact ⟨none, by simp [parseRegexp, h0]⟩
      · exact ⟨some re, by simp [parseRegexp, h0, h]⟩
  obtain ⟨r1, h1⟩ := h1
  obtain ⟨r2, h2⟩ := h2
  have hsel2 : ¬ (opts.OnlyFuncs = "" ∧ opts.ExclFuncs = "" ∧ ¬ opts.ExportedFuncs = true ∧
      ¬ opts.AllFuncs = true) := by
    simpa using hsel
  by_cases hp : opts.TemplateParamsPath = ""
  · simp only [parseOptions, if_neg hsel2, h1, h2, hp]
    simp only [ne_eq, not_true_eq_false, if_false]
    exact ⟨_, rfl⟩
  · rcases hparams with h | ⟨buf, m, hr, hu⟩
    · exact absurd h hp
    · simp only [parseOptions, if_neg hsel2, h1, h2]
      simp only [ne_eq, hp, not_false_eq_true, if_true, hr, hu]
      exact ⟨_, rfl⟩

/-- C10: for options that pass option parsing (a selector is set, each pattern is empty or
compiles, the parameter file is absent or readable and decodable), `Run` on an empty
argument list returns the error `specifyFileMessage` and leaves the trace unchanged: the
generator is invoked on no target and nothing is written to `out`. -/
theorem C10_run_without_targets (env : Env Re Fn Params) (opts : Options) (tr : List Event)
    (hsel : ¬ (opts.OnlyFuncs = "" ∧ opts.ExclFuncs = "" ∧ opts.ExportedFuncs = false ∧
      opts.AllFuncs = false))
    (honly : opts.OnlyFuncs = "" ∨ ∃ re, env.Compile opts.OnlyFuncs = .ok re)
    (hexcl : opts.ExclFuncs = "" ∨ ∃ re, env.Compile opts.ExclFuncs = .ok re)
    (hparams : opts.TemplateParamsPath = "" ∨
      ∃ buf m, env.ReadFile opts.TemplateParamsPath = .ok buf ∧ env.Unmarshal buf = .ok m) :
    Run env [] (some opts) tr = (some specifyFileMessage, tr) := by
  obtain ⟨opt, hopt⟩ := parseOptions_ok env opts hsel honly hexcl hparams
  simp [Run, hopt, Errorf_specifyFileMessage]

/-- Witness of C10 on `Options{AllFuncs: true}` with no arguments. -/
theorem C10_run_without_targets_witness :
    Run demoEnv [] (some { AllFuncs := true }) [] = (some specifyFileMessage, []) :=
  C10_run_without_targets demoEnv { AllFuncs := true } [] (by decide)
    (Or.inl rfl) (Or.inl rfl) (Or.inl rfl)

end

theorem generatorCalls_append (a b : List Event) :
    generatorCalls (a ++ b) = generatorCalls a ++ generatorCalls b := by
  induction a with
  | nil => rfl
  | cons e a ih => cases e <;> simp [generatorCalls, ih]

theorem outWrites_append (a b : List Event) :
    outWrites (a ++ b) = outWrites a ++ outWrites b := by
  induction a with
  | nil => rfl
  | cons e a ih => cases e <;> simp [outWrites, ih]

theorem fileWrites_append (a b : List Event) :
    fileWrites (a ++ b) = fileWrites a ++ fileWrites b := by
  induction a with
  | nil => rfl
  | cons e a ih => cases e <;> simp [fileWrites, ih]

theorem generatorCalls_stderr {α : Type} (f : α → String) (l : List α) :
    generatorCalls (l.map (fun x => Event.stderr (f x))) = [] := by
  induction l with
  | nil => rfl
  | cons x l ih => simpa [generatorCalls] using ih

theorem outWrites_stderr {α : Type} (f : α → String) (l : List α) :
    outWrites (l.map (fun x => Event.stderr (f x))) = [] := by
  induction l with
  | nil => rfl
  | cons x l ih => simpa [outWrites] using ih

theorem fileWrites_stderr {α : Type} (f : α → String) (l : List α) :
    fileWrites (l.map (fun x => Event.stderr (f x))) = [] := by
  induction l with
  | nil => rfl
  | cons x l ih => simpa [fileWrites] using ih

section
variable {Re Fn Params : Type}

/-- The events `outputTest` adds in write mode. -/
theorem outputTest_write (env : Env Re Fn Params) (t : GeneratedTest Fn) (tr : List Event) :
    ∃ new, (outputTest env t true tr).2 = tr ++ new ∧ outWrites new = [] ∧
      fileWrites new = [(t.Path, t.Output, newFilePerm)] ∧ generatorCalls new = [] := by
  cases h : env.WriteFile tr t.Path t.Output newFilePerm with
  | some err =>
    refine ⟨[Event.writeFile t.Path t.Output newFilePerm], ?_, rfl, rfl, rfl⟩
    simp [outputTest, h]
  | none =>
    refine ⟨Event.writeFile t.Path t.Output newFilePerm :: t.Functions.map
      (fun f => Event.stderr (fmt.Sprintln ["Generated", env.TestName f])), ?_, ?_, ?_, ?_⟩
    · simp [outputTest, h]
    · simp [outWrites, outWrites_stderr]
    · simp [fileWrites, fileWrites_stderr]
    · simp [generatorCalls, generatorCalls_stderr]

/-- The events `outputTest` adds in stream mode. -/
theorem outputTest_stream (env : Env Re Fn Params) (t : GeneratedTest Fn) (tr : List Event) :
    ∃ new, (outputTest env t false tr).2 = tr ++ new ∧ fileWrites new = [] ∧
      outWrites new = [t.Output] ∧ generatorCalls new = [] := by
  refine ⟨t.Functions.map (fun f => Event.stderr (fmt.Sprintln ["Generated", env.TestName f]))
    ++ [Event.outWrite t.Output], ?_, ?_, ?_, ?_⟩
  · simp [outputTest]
  · simp [fileWrites_append, fileWrites, fileWrites_stderr]
  · simp [outWrites_append, outWrites, outWrites_stderr]
  · simp [generatorCalls_append, generatorCalls, generatorCalls_stderr]

/-- C5: in write mode `outputTest` makes no `out.Write` call and exactly one
`ioutil.WriteFile` call, with arguments `t.Path`, `t.Output` and mode 0644; in stream mode it
makes no `ioutil.WriteFile` call and exactly one `out.Write` call, with argument `t.Output`.
In either mode at most one of the two kinds of write occurs. -/
theorem C5_outputTest_effects (env : Env Re Fn Params) (t : GeneratedTest Fn)
    (tr : List Event) :
    (∃ new, (outputTest env t true tr).2 = tr ++ new ∧ outWrites new = [] ∧
      fileWrites new = [(t.Path, t.Output, 0o644)]) ∧
    (∃ new, (outputTest env t false tr).2 = tr ++ new ∧ fileWrites new = [] ∧
      outWrites new = [t.Output]) ∧
    (∀ writeOutput, ∃ new, (outputTest env t writeOutput tr).2 = tr ++ new ∧
      (fileWrites new = [] ∨ outWrites new = [])) := by
  obtain ⟨n1, h1, h2, h3, _⟩ := outputTest_write env t tr
  obtain ⟨n2, k1, k2, k3, _⟩ := outputTest_stream env t tr
  refine ⟨⟨n1, h1, h2, h3⟩, ⟨n2, k1, k2, k3⟩, ?_⟩
  intro wo
  cases wo
  · exact ⟨n2, k1, Or.inl k2⟩
  · exact ⟨n1, h1, Or.inr h2⟩

theorem outputTest_calls (env : Env Re Fn Params) (t : GeneratedTest Fn) (writeOutput : Bool)
    (tr : List Event) :
    ∃ new, (outputTest env t writeOutput tr).2 = tr ++ new ∧ generatorCalls new = [] := by
  cases writeOutput
  · obtain ⟨n, h1, _, _, h4⟩ := outputTest_stream env t tr
    exact ⟨n, h1, h4⟩
  · obtain ⟨n, h1, _, _, h4⟩ := outputTest_write env t tr
    exact ⟨n, h1, h4⟩

theorem outputTest_none (env : Env Re Fn Params) (t : GeneratedTest Fn) (writeOutput : Bool)
    (tr tr1 : List Event) (h : outputTest env t writeOutput tr = (none, tr1)) :
    tr1 = tr ++ outputEvents env writeOutput t := by
  cases writeOutput
  · simp only [outputTest, Bool.false_eq_true, if_false, not_false_eq_true, if_true,
      Prod.mk.injEq] at h
    rw [← h.2]
    simp [outputEvents, Sprintln_generated]
  · cases hw : env.WriteFile tr t.Path t.Output newFilePerm with
    | some err => simp [outputTest, hw] at h
    | none =>
      simp only [outputTest, hw, if_true, not_true_eq_false, if_false, Prod.mk.injEq,
        true_and] at h
      rw [← h]
      simp [outputEvents, Sprintln_generated]

theorem outputTests_calls (env : Env Re Fn Params) (writeOutput : Bool)
    (gts : List (GeneratedTest Fn)) (tr : List Event) :
    ∃ new, (outputTests env writeOutput gts tr).2 = tr ++ new ∧ generatorCalls new = [] := by
  induction gts generalizing tr with
  | nil => exact ⟨[], by simp [outputTests], rfl⟩
  | cons t rest ih =>
    obtain ⟨n1, h1, h2⟩ := outputTest_calls env t writeOutput tr
    cases hr : outputTest env t writeOutput tr with
    | mk r tr1 =>
      rw [hr] at h1
      simp only at h1
      cases r with
      | some err => exact ⟨n1, by simp [outputTests, hr, h1], h2⟩
      | none =>
        obtain ⟨n2, k1, k2⟩ := ih tr1
        refine ⟨n1 ++ n2, ?_, by simp [generatorCalls_append, h2, k2]⟩
        simp only [outputTests, hr, k1]
        rw [h1, List.append_assoc]

theorem outputTests_none (env : Env Re Fn Params) (writeOutput : Bool)
    (gts : List (GeneratedTest Fn)) (tr tr1 : List Event)
    (h : outputTests env writeOutput gts tr = (none, tr1)) :
    tr1 = tr ++ gts.flatMap (outputEvents env writeOutput) := by
  induction gts generalizing tr with
  | nil =>
    simp only [outputTests, Prod.mk.injEq, true_and] at h
    simp [h]
  | cons t rest ih =>
    cases hr : outputTest env t writeOutput tr with
    | mk r tr2 =>
      cases r with
      | some err => simp [outputTests, hr] at h
      | none =>
        simp only [outputTests, hr] at h
        rw [ih tr2 h, outputTest_none env t writeOutput tr tr2 hr]
        simp

/-- Whatever its result, `generateTests` invokes the generator exactly once, on its path. -/
theorem generateTests_calls (env : Env Re Fn Params) (path : String) (writeOutput : Bool)
    (opt : GOptions Re Params) (tr : List Event) :
    generatorCalls (generateTests env path writeOutput opt tr).2 =
      generatorCalls tr ++ [path] ∧
    tr <+: (generateTests env path writeOutput opt tr).2 := by
  cases hg : env.GenerateTests tr path opt with
  | error err =>
    simp [generateTests, hg, generatorCalls_append, generatorCalls]
  | ok gts =>
    by_cases hl : gts.length = 0
    · simp [generateTests, hg, hl, generatorCalls_append, generatorCalls]
    · obtain ⟨n, h1, h2⟩ := outputTests_calls env writeOutput gts (tr ++ [Event.generate path])
      simp only [generateTests, hg, hl, if_false, h1]
      constructor
      · simp [generatorCalls_append, generatorCalls, h2]
      · exact ⟨[Event.generate path] ++ n, by simp⟩

/-- A call of `generateTests` without error ran the generator, got a non-empty list of tests
and output every one of them completely. -/
theorem generateTests_none (env : Env Re Fn Params) (path : String) (writeOutput : Bool)
    (opt : GOptions Re Params) (tr tr1 : List Event)
    (h : generateTests env path writeOutput opt tr = (none, tr1)) :
    ∃ gts, env.GenerateTests tr path opt = .ok gts ∧ gts ≠ [] ∧
      tr1 = tr ++ Event.generate path :: gts.flatMap (outputEvents env writeOutput) := by
  cases hg : env.GenerateTests tr path opt with
  | error err => simp [generateTests, hg] at h
  | ok gts =>
    by_cases hl : gts.length = 0
    · simp [generateTests, hg, hl] at h
    · simp only [generateTests, hg, hl, if_false] at h
      refine ⟨gts, rfl, ?_, ?_⟩
      · intro h0
        exact hl (by simp [h0])
      · rw [outputTests_none env writeOutput gts _ tr1 h]
        simp

/-- The message of `generateTests` when the generator returns an empty list. -/
theorem generateTests_empty (env : Env Re Fn Params) (path : String) (writeOutput : Bool)
    (opt : GOptions Re Params) (tr : List Event) (h : env.GenerateTests tr path opt = .ok []) :
    generateTests env path writeOutput opt tr =
      (some "no tests generated", tr ++ [Event.generate path]) := by
  simp [generateTests, h, Errorf_no_tests]

theorem outputTest_error (env : Env Re Fn Params) (t : GeneratedTest Fn) (writeOutput : Bool)
    (tr tr1 : List Event) (e : String) (h : outputTest env t writeOutput tr = (some e, tr1)) :
    ∃ tr0, (writeOutput = true ∧ ∃ we, env.WriteFile tr0 t.Path t.Output newFilePerm = some we ∧
        e = t.Path ++ " (-w): " ++ we) ∨
      (writeOutput = false ∧ env.outWrite tr0 t.Output = some e) := by
  cases writeOutput
  · simp only [outputTest, Bool.false_eq_true, if_false, not_false_eq_true, if_true,
      Prod.mk.injEq] at h
    exact ⟨_, Or.inr ⟨rfl, h.1⟩⟩
  · cases hw : env.WriteFile tr t.Path t.Output newFilePerm with
    | none => simp [outputTest, hw] at h
    | some we =>
      simp only [outputTest, hw, if_true, Prod.mk.injEq, Option.some.injEq] at h
      exact ⟨tr, Or.inl ⟨rfl, we, hw, by rw [← h.1, Errorf_write]⟩⟩

theorem outputTests_error (env : Env Re Fn Params) (writeOutput : Bool)
    (gts : List (GeneratedTest Fn)) (tr tr1 : List Event) (e : String)
    (h : outputTests env writeOutput gts tr = (some e, tr1)) :
    ∃ t tr0, t ∈ gts ∧
      ((writeOutput = true ∧ ∃ we, env.WriteFile tr0 t.Path t.Output newFilePerm = some we ∧
          e = t.Path ++ " (-w): " ++ we) ∨
        (writeOutput = false ∧ env.outWrite tr0 t.Output = some e)) := by
  induction gts generalizing tr with
  | nil => simp [outputTests] at h
  | cons t rest ih =>
    cases hr : outputTest env t writeOutput tr with
    | mk r tr2 =>
      cases r with
      | some err =>
        simp only [outputTests, hr, Prod.mk.injEq, Option.some.injEq] at h
        obtain ⟨tr0, h0⟩ := outputTest_error env t writeOutput tr tr2 err hr
        rw [h.1] at h0
        exact ⟨t, tr0, List.mem_cons_self _ _, h0⟩
      | none =>
        simp only [outputTests, hr] at h
        obtain ⟨t2, tr0, hm, h0⟩ := ih tr2 h
        exact ⟨t2, tr0, List.mem_cons_of_mem _ hm, h0⟩

/-- The error of a failing `generateTests` call has one of the four shapes of
`TargetError`. -/
theorem generateTests_error (env : Env Re Fn Params) (path : String) (writeOutput : Bool)
    (opt : GOptions Re Params) (tr tr1 : List Event) (e : String)
    (h : generateTests env path writeOutput opt tr = (some e, tr1)) :
    TargetError env writeOutput opt path tr e := by
  cases hg : env.GenerateTests tr path opt with
  | error ge =>
    simp only [generateTests, hg, Prod.mk.injEq, Option.some.injEq] at h
    exact Or.inl ⟨ge, hg, by rw [← h.1, Errorf_generating]⟩
  | ok gts =>
    cases gts with
    | nil =>
      simp only [generateTests, hg, List.length_nil, if_true, Prod.mk.injEq,
        Option.some.injEq] at h
      exact Or.inr (Or.inl ⟨hg, by rw [← h.1, Errorf_no_tests]⟩)
    | cons t rest =>
      simp only [generateTests, hg, List.length_cons, Nat.add_one_ne_zero, if_false] at h
      obtain ⟨t2, tr0, hm, h0⟩ := outputTests_error env writeOutput (t :: rest) _ tr1 e h
      exact Or.inr (Or.inr ⟨t :: rest, t2, tr0, hg, hm, h0⟩)

theorem runTargets_append (env : Env Re Fn Params) (writeOutput : Bool)
    (opt : GOptions Re Params) (pre rest : List String) (tr tr1 : List Event)
    (h : Succeeds env writeOutput opt pre tr tr1) :
    runTargets env writeOutput opt (pre ++ rest) tr = runTargets env writeOutput opt rest tr1 := by
  induction h with
  | nil tr => rfl
  | cons hg _ ih => simp [runTargets, hg, ih]

theorem Succeeds_calls (env : Env Re Fn Params) (writeOutput : Bool)
    (opt : GOptions Re Params) (pre : List String) (tr tr1 : List Event)
    (h : Succeeds env writeOutput opt pre tr tr1) :
    generatorCalls tr1 = generatorCalls tr ++ pre := by
  induction h with
  | nil tr => simp
  | @cons path rest tr tr1 tr2 hg _ ih =>
    have hc := (generateTests_calls env path writeOutput opt tr).1
    rw [hg] at hc
    simp only at hc
    rw [ih, hc]
    simp

theorem Succeeds_fullyOutput (env : Env Re Fn Params) (writeOutput : Bool)
    (opt : GOptions Re Params) (pre : List String) (tr tr1 : List Event)
    (h : Succeeds env writeOutput opt pre tr tr1) :
    FullyOutput env writeOutput opt pre tr tr1 := by
  induction h with
  | nil tr => exact FullyOutput.nil tr
  | @cons path rest tr tr1 tr2 hg _ ih =>
    obtain ⟨gts, h1, h2, h3⟩ := generateTests_none env path writeOutput opt tr tr1 hg
    subst h3
    exact FullyOutput.cons h1 h2 ih

/-- C4 (amended): for every valid option set, if the targets before a target `p` are
processed without error and `generateTests` fails on `p` with error `e` (of one of the four
shapes of `TargetError`), then `Run` returns the error whose message is `p`, ": " and `e`,
the generator has been invoked exactly on the targets up to and including `p`, and every
earlier target has been output completely; and on a non-empty argument list on which no
target fails, `Run` returns nil after invoking the generator on every target in order and
outputting each completely. -/
theorem C4_run_stops_at_first_failure (env : Env Re Fn Params) (opts : Options)
    (opt : GOptions Re Params) (tr : List Event) (hopt : parseOptions env opts = .ok opt) :
    (∀ (pre : List String) (p : String) (post : List String) (e : String)
        (tr1 tr2 : List Event),
      Succeeds env opts.WriteOutput opt pre tr tr1 →
      generateTests env p opts.WriteOutput opt tr1 = (some e, tr2) →
      Run env (pre ++ p :: post) (some opts) tr = (some (p ++ ": " ++ e), tr2) ∧
        generatorCalls tr2 = generatorCalls tr ++ pre ++ [p] ∧
        FullyOutput env opts.WriteOutput opt pre tr tr1 ∧ tr1 <+: tr2 ∧
        TargetError env opts.WriteOutput opt p tr1 e) ∧
    (∀ (args : List String) (tr1 : List Event), args ≠ [] →
      Succeeds env opts.WriteOutput opt args tr tr1 →
      Run env args (some opts) tr = (none, tr1) ∧
        generatorCalls tr1 = generatorCalls tr ++ args ∧
        FullyOutput env opts.WriteOutput opt args tr tr1) := by
  constructor
  · intro pre p post e tr1 tr2 hs hg
    have hc := generateTests_calls env p opts.WriteOutput opt tr1
    rw [hg] at hc
    refine ⟨?_, ?_, Succeeds_fullyOutput env _ opt pre tr tr1 hs, hc.2,
      generateTests_error env p _ opt tr1 tr2 e hg⟩
    · simp only [Run, hopt]
      rw [if_neg (by simp), runTargets_append env _ opt pre (p :: post) tr tr1 hs]
      simp [runTargets, hg, Errorf_target]
    · rw [hc.1, Succeeds_calls env _ opt pre tr tr1 hs]
  · intro args tr1 hne hs
    refine ⟨?_, Succeeds_calls env _ opt args tr tr1 hs,
      Succeeds_fullyOutput env _ opt args tr tr1 hs⟩
    simp only [Run, hopt]
    rw [if_neg (by simpa using hne)]
    have := runTargets_append env opts.WriteOutput opt args [] tr tr1 hs
    simpa [runTargets] using this

end

/-- Witness of C4 (amended): the second of three targets fails, and a single target
succeeds. -/
theorem C4_run_stops_at_first_failure_witness :
    (Run demoEnv ["testdata/foobar.go", "missing.go", "testdata/foobar.go"]
        (some { AllFuncs := true }) [] =
        (some ("missing.go" ++ ": " ++ "generating tests: no such file or directory"),
          demoTrace ++ [Event.generate "missing.go"]) ∧
      generatorCalls (demoTrace ++ [Event.generate "missing.go"]) =
        generatorCalls [] ++ ["testdata/foobar.go"] ++ ["missing.go"] ∧
      FullyOutput demoEnv false demoOpt ["testdata/foobar.go"] [] demoTrace ∧
      demoTrace <+: demoTrace ++ [Event.generate "missing.go"] ∧
      TargetError demoEnv false demoOpt "missing.go" demoTrace
        "generating tests: no such file or directory") ∧
    (Run demoEnv ["testdata/foobar.go"] (some { AllFuncs := true }) [] = (none, demoTrace) ∧
      generatorCalls demoTrace = generatorCalls [] ++ ["testdata/foobar.go"] ∧
      FullyOutput demoEnv false demoOpt ["testdata/foobar.go"] [] demoTrace) :=
  ⟨(C4_run_stops_at_first_failure demoEnv { AllFuncs := true } demoOpt [] rfl).1
      ["testdata/foobar.go"] "missing.go" ["testdata/foobar.go"]
      "generating tests: no such file or directory" demoTrace
      (demoTrace ++ [Event.generate "missing.go"])
      (Succeeds.cons (by decide) (Succeeds.nil _)) (by decide),
    (C4_run_stops_at_first_failure demoEnv { AllFuncs := true } demoOpt [] rfl).2
      ["testdata/foobar.go"] demoTrace (by simp)
      (Succeeds.cons (by decide) (Succeeds.nil _))⟩

/-- C4 as stated fails on the empty argument list: the options are valid and no target
fails, yet `Run` does not return nil but the error `specifyFileMessage`. -/
theorem C4_counterexample_empty_args :
    parseOptions demoEnv { AllFuncs := true } = .ok demoOpt ∧
    Succeeds demoEnv false demoOpt [] [] [] ∧
    Run demoEnv [] (some { AllFuncs := true }) [] = (some specifyFileMessage, []) ∧
    (Run demoEnv [] (some { AllFuncs := true }) []).1 ≠ none :=
  ⟨rfl, Succeeds.nil _, by decide, by decide⟩

section
variable {Re Fn Params : Type}

/-- When the generator succeeds with an empty list on the first target, the message of the
error `Run` returns is the target path followed by ": no tests generated". -/
theorem Run_no_tests (env : Env Re Fn Params) (path : String) (rest : List String)
    (opts : Options) (opt : GOptions Re Params) (tr : List Event)
    (hopt : parseOptions env opts = .ok opt)
    (hgen : env.GenerateTests tr path opt = .ok []) :
    Run env (path :: rest) (some opts) tr =
      (some (path ++ ": " ++ "no tests generated"), tr ++ [Event.generate path]) := by
  simp [Run, hopt, runTargets, generateTests_empty env path _ opt tr hgen, Errorf_target]

end

/-- The message `path: no tests generated` is too short to contain the text
`No tests generated for path` followed by a newline. -/
theorem no_tests_message_not_contained (path : String) :
    ¬ stringsContains (path ++ ": " ++ "no tests generated")
      ("No tests generated for " ++ path ++ "\n") := by
  intro h
  have hl := List.IsInfix.length_le h
  simp only [String.data_append, List.length_append, List.length_cons, List.length_nil] at hl
  omega

/-- C3 evaluated on the code: for `testdata/foobar.go` with `Options{OnlyFuncs: "FooBar"}`,
where the generator succeeds with no test, `Run` returns the message
`testdata/foobar.go: no tests generated`, which does not contain the text
`No tests generated for testdata/foobar.go` followed by a newline. -/
theorem C3_no_tests_message :
    Run demoEnv ["testdata/foobar.go"] (some { OnlyFuncs := "FooBar" }) [] =
      (some ("testdata/foobar.go" ++ ": " ++ "no tests generated"),
        [Event.generate "testdata/foobar.go"]) ∧
    ¬ stringsContains ("testdata/foobar.go" ++ ": " ++ "no tests generated")
      ("No tests generated for " ++ "testdata/foobar.go" ++ "\n") :=
  ⟨Run_no_tests demoEnv "testdata/foobar.go" [] { OnlyFuncs := "FooBar" }
      { demoOpt with Only := some "FooBar" } [] rfl rfl,
    no_tests_message_not_contained "testdata/foobar.go"⟩

end process

namespace output

theorem Errorf_render_header (e : String) :
    fmt.Errorf "render.Header: %v" [e] = "render.Header: " ++ e := by
  apply String.ext
  simp [fmt.Errorf, fmt.Sprintf, fmt.expand]

theorem Errorf_loading_dir (e : String) :
    fmt.Errorf "loading custom templates: %v" [e] = "loading custom templates: " ++ e := by
  apply String.ext
  simp [fmt.Errorf, fmt.Sprintf, fmt.expand]

theorem Errorf_loading_name (e : String) :
    fmt.Errorf "loading custom templates of name: %v" [e] =
      "loading custom templates of name: " ++ e := by
  apply String.ext
  simp [fmt.Errorf, fmt.Sprintf, fmt.expand]

theorem Errorf_imports (e : String) :
    fmt.Errorf importsFormat [e] = "imports.Process: " ++ e ++
      "\nYou can set DEBUG_GENERATED=1 to print to stdout the intermediate generated code before it is gofmt'd." := by
  apply String.ext
  simp [fmt.Errorf, fmt.Sprintf, fmt.expand, importsFormat]

theorem reorder_map {α β : Type} (f : α → β) (idx : List Nat) (l : List α) :
    (reorder idx l).map f = reorder idx (l.map f) := by
  induction idx with
  | nil => rfl
  | cons i idx ih =>
    simp only [reorder] at ih ⊢
    cases h : l[i]? with
    | none => simp [List.filterMap_cons, h, ih]
    | some a => simp [List.filterMap_cons, h, ih]

theorem mem_of_mem_reorder {α : Type} (idx : List Nat) (l : List α) (a : α)
    (h : a ∈ reorder idx l) : a ∈ l := by
  simp only [reorder, List.mem_filterMap] at h
  obtain ⟨i, _, hi⟩ := h
  exact List.getElem?_mem hi

section
variable {Tpl Hdr Fn Params : Type}

/-- When every call succeeds, the loop of `writeTests` buffers the blocks in order and
records one render call per descriptor. -/
theorem renderFuncs_ok (env : Env Tpl Hdr Fn Params) (opt : Option (Options Params))
    (funcs : List Fn) (b : BufWriter) (st : State Tpl Hdr Fn)
    (hf : ∀ fn ∈ funcs, ∃ bytes, callTestFunction env st.templates opt fn = .ret (bytes, none)) :
    renderFuncs env opt funcs b st =
      (.ret none,
        { buf := b.buf ++ (funcs.map (functionBlock env st.templates opt)).flatten, wr := b.wr },
        { templates := st.templates,
          trace := st.trace ++ funcs.map (Event.renderTestFunction st.templates) }) := by
  induction funcs generalizing b st with
  | nil => simp [renderFuncs]
  | cons fn rest ih =>
    obtain ⟨bytes, hb⟩ := hf fn (List.mem_cons_self _ _)
    have hrest : ∀ f ∈ rest, ∃ bytes,
        callTestFunction env (st.log (Event.renderTestFunction st.templates fn)).templates opt f
          = .ret (bytes, none) := fun f hfm => hf f (List.mem_cons_of_mem _ hfm)
    simp only [renderFuncs, hb]
    rw [ih _ _ hrest]
    simp [State.log, BufWriter.Write, functionBlock, hb]

/-- C7: when the header render and every function render succeed, the bytes `writeTests`
passes to its writer are the rendered header followed by the rendered blocks of the
descriptors in input order, after exactly one header render call and one function render
call per descriptor in input order; and for every rearrangement of the input the function
blocks of the output are rearranged the same way. -/
theorem C7_writeTests_order (env : Env Tpl Hdr Fn Params) (w : Writer) (head : Hdr)
    (funcs : List Fn) (opt : Option (Options Params)) (st : State Tpl Hdr Fn)
    (hh : (env.Header st.templates head).2 = none)
    (hf : ∀ fn ∈ funcs, ∃ bytes, callTestFunction env st.templates opt fn = .ret (bytes, none)) :
    ((writeTests env w head funcs opt st).2.1.written =
        w.written ++ ((env.Header st.templates head).1 ++
          (funcs.map (functionBlock env st.templates opt)).flatten) ∧
      (writeTests env w head funcs opt st).2.2.trace =
        st.trace ++ (Event.renderHeader st.templates head ::
          funcs.map (Event.renderTestFunction st.templates))) ∧
    (∀ idx : List Nat, idx.Perm (List.range funcs.length) →
      (writeTests env w head (reorder idx funcs) opt st).2.1.written =
        w.written ++ ((env.Header st.templates head).1 ++
          (reorder idx (funcs.map (functionBlock env st.templates opt))).flatten)) := by
  have key : ∀ fs : List Fn,
      (∀ fn ∈ fs, ∃ bytes, callTestFunction env st.templates opt fn = .ret (bytes, none)) →
      (writeTests env w head fs opt st).2.1.written =
          w.written ++ ((env.Header st.templates head).1 ++
            (fs.map (functionBlock env st.templates opt)).flatten) ∧
        (writeTests env w head fs opt st).2.2.trace =
          st.trace ++ (Event.renderHeader st.templates head ::
            fs.map (Event.renderTestFunction st.templates)) := by
    intro fs hfs
    have hfs2 : ∀ fn ∈ fs, ∃ bytes,
        callTestFunction env (st.log (Event.renderHeader st.templates head)).templates opt fn
          = .ret (bytes, none) := hfs
    simp only [writeTests, hh, renderFuncs_ok env opt fs _ _ hfs2]
    by_cases hempty : ((env.Header st.templates head).1 ++
        (fs.map (functionBlock env st.templates opt)).flatten) = []
    · simp [BufWriter.Flush, BufWriter.Write, NewWriter, State.log, hempty]
    · simp [BufWriter.Flush, BufWriter.Write, NewWriter, State.log, hempty, Writer.Write]
  refine ⟨key funcs hf, ?_⟩
  intro idx _
  rw [(key (reorder idx funcs)
    (fun fn hfn => hf fn (mem_of_mem_reorder idx funcs fn hfn))).1, reorder_map]

theorem renderOnly_nil (tpl : Tpl) : RenderOnly tpl ([] : List (Event Tpl Hdr Fn)) := by
  intro e he
  cases he

theorem renderOnly_append {tpl : Tpl} {a b : List (Event Tpl Hdr Fn)}
    (ha : RenderOnly tpl a) (hb : RenderOnly tpl b) : RenderOnly tpl (a ++ b) := by
  intro e he
  rcases List.mem_append.1 he with h | h
  · exact ha e h
  · exact hb e h

theorem renderOnly_loaderCalls {tpl : Tpl} {new : List (Event Tpl Hdr Fn)}
    (h : RenderOnly tpl new) : loaderCalls new = [] := by
  simp only [output.loaderCalls, List.filter_eq_nil_iff]
  intro e he
  rcases h e he with ⟨x, rfl⟩ | ⟨x, rfl⟩ <;> simp [Event.isLoader]

theorem renderOnly_stdoutWrites {tpl : Tpl} {new : List (Event Tpl Hdr Fn)}
    (h : RenderOnly tpl new) : stdoutWrites new = [] := by
  simp only [output.stdoutWrites, List.filterMap_eq_nil_iff]
  intro e he
  rcases h e he with ⟨x, rfl⟩ | ⟨x, rfl⟩ <;> rfl

theorem renderOnly_renderTemplates {tpl : Tpl} {new : List (Event Tpl Hdr Fn)}
    (h : RenderOnly tpl new) : ∀ t ∈ renderTemplates new, t = tpl := by
  intro t ht
  simp only [output.renderTemplates, List.mem_filterMap] at ht
  obtain ⟨e, he, het⟩ := ht
  rcases h e he with ⟨x, rfl⟩ | ⟨x, rfl⟩ <;>
    · simp only [Event.renderTpl, Option.some.injEq] at het
      exact het.symm

/-- Whatever its outcome, the loop of `writeTests` leaves the registration as it is and
records render calls only, all under that registration. -/
theorem renderFuncs_trace (env : Env Tpl Hdr Fn Params) (opt : Option (Options Params))
    (funcs : List Fn) (b : BufWriter) (st : State Tpl Hdr Fn) :
    (renderFuncs env opt funcs b st).2.2.templates = st.templates ∧
    ∃ new, (renderFuncs env opt funcs b st).2.2.trace = st.trace ++ new ∧
      RenderOnly st.templates new := by
  induction funcs generalizing b st with
  | nil => exact ⟨rfl, [], by simp [renderFuncs], renderOnly_nil _⟩
  | cons fn rest ih =>
    cases hc : callTestFunction env st.templates opt fn with
    | panic msg => exact ⟨by simp [renderFuncs, hc], [], by simp [renderFuncs, hc], renderOnly_nil _⟩
    | ret r =>
      obtain ⟨bytes, err⟩ := r
      have hone : RenderOnly st.templates
          ([Event.renderTestFunction st.templates fn] : List (Event Tpl Hdr Fn)) := by
        intro e he
        simp only [List.mem_singleton] at he
        exact Or.inr ⟨fn, he⟩
      cases err with
      | some e =>
        exact ⟨by simp [renderFuncs, hc, State.log], _, by simp [renderFuncs, hc, State.log], hone⟩
      | none =>
        obtain ⟨h1, new, h2, h3⟩ := ih (b.Write bytes)
          (st.log (Event.renderTestFunction st.templates fn))
        refine ⟨by simpa [renderFuncs, hc] using h1,
          [Event.renderTestFunction st.templates fn] ++ new, ?_, renderOnly_append hone h3⟩
        simp only [renderFuncs, hc, h2]
        simp [State.log]

/-- Whatever its outcome, `writeTests` leaves the registration as it is and records render
calls only, all under that registration. -/
theorem writeTests_trace (env : Env Tpl Hdr Fn Params) (w : Writer) (head : Hdr)
    (funcs : List Fn) (opt : Option (Options Params)) (st : State Tpl Hdr Fn) :
    (writeTests env w head funcs opt st).2.2.templates = st.templates ∧
    ∃ new, (writeTests env w head funcs opt st).2.2.trace = st.trace ++ new ∧
      RenderOnly st.templates new := by
  have hone : RenderOnly st.templates
      ([Event.renderHeader st.templates head] : List (Event Tpl Hdr Fn)) := by
    intro e he
    simp only [List.mem_singleton] at he
    exact Or.inl ⟨head, he⟩
  cases hh : (env.Header st.templates head).2 with
  | some e =>
    exact ⟨by simp [writeTests, hh, State.log], _, by simp [writeTests, hh, State.log], hone⟩
  | none =>
    obtain ⟨h1, new, h2, h3⟩ := renderFuncs_trace env opt funcs
      ((NewWriter w).Write (env.Header st.templates head).1)
      (st.log (Event.renderHeader st.templates head))
    have hsplit : (writeTests env w head funcs opt st).2.2 =
        (renderFuncs env opt funcs ((NewWriter w).Write (env.Header st.templates head).1)
          (st.log (Event.renderHeader st.templates head))).2.2 := by
      simp only [writeTests, hh]
      split <;> simp_all
    rw [hsplit]
    refine ⟨h1, [Event.renderHeader st.templates head] ++ new, ?_, renderOnly_append hone h3⟩
    rw [h2]
    simp [State.log]

/-- The loader step records exactly the loader calls of the resolved selection. -/
theorem loadTemplates_trace (env : Env Tpl Hdr Fn Params) (opt : Option (Options Params))
    (st : State Tpl Hdr Fn) :
    (loadTemplates env opt st).2.trace = st.trace ++ loaderOf (selection opt) := by
  cases opt with
  | none => simp [loadTemplates, selection, loaderOf]
  | some o =>
    by_cases hd : o.TemplateDir = ""
    · by_cases hn : o.Template = ""
      · cases hdata : o.TemplateData <;>
          simp [loadTemplates, selection, loaderOf, hd, hn, hdata]
      · simp only [loadTemplates, selection, loaderOf, hd, hn, ne_eq, not_true_eq_false,
          not_false_eq_true, if_false, if_true]
        split <;> rfl
    · simp only [loadTemplates, selection, loaderOf, hd, ne_eq, not_false_eq_true, if_true]
      split <;> rfl

/-- The loader step leaves the registration that the loader of the resolved selection
yields. -/
theorem loadTemplates_templates (env : Env Tpl Hdr Fn Params) (opt : Option (Options Params))
    (st : State Tpl Hdr Fn) :
    (loadTemplates env opt st).2.templates = loaded env (selection opt) st.templates := by
  cases opt with
  | none => simp [loadTemplates, selection, loaded]
  | some o =>
    by_cases hd : o.TemplateDir = ""
    · by_cases hn : o.Template = ""
      · cases hdata : o.TemplateData <;>
          simp [loadTemplates, selection, loaded, hd, hn, hdata]
      · simp only [loadTemplates, selection, loaded, hd, hn, ne_eq, not_true_eq_false,
          not_false_eq_true, if_false, if_true]
        split <;> rfl
    · simp only [loadTemplates, selection, loaded, hd, ne_eq, not_false_eq_true, if_true]
      split <;> rfl

theorem quiet_nil (tpl : Tpl) : Quiet tpl ([] : List (Event Tpl Hdr Fn)) := by
  intro e he
  cases he

theorem quiet_append {tpl : Tpl} {a b : List (Event Tpl Hdr Fn)}
    (ha : Quiet tpl a) (hb : Quiet tpl b) : Quiet tpl (a ++ b) := by
  intro e he
  rcases List.mem_append.1 he with h | h
  · exact ha e h
  · exact hb e h

theorem quiet_cons {tpl : Tpl} (e : Event Tpl Hdr Fn) {b : List (Event Tpl Hdr Fn)}
    (h1 : e.isLoader = false) (h2 : e.renderTpl = none) (hb : Quiet tpl b) :
    Quiet tpl (e :: b) := by
  intro x hx
  rcases List.mem_cons.1 hx with h | h
  · subst h
    exact ⟨h1, by simp [h2]⟩
  · exact hb x h

theorem renderOnly_quiet {tpl : Tpl} {new : List (Event Tpl Hdr Fn)}
    (h : RenderOnly tpl new) : Quiet tpl new := by
  intro e he
  rcases h e he with ⟨x, rfl⟩ | ⟨x, rfl⟩
  · refine ⟨rfl, fun t ht => ?_⟩
    simp only [Event.renderTpl, Option.some.injEq] at ht
    exact ht.symm
  · refine ⟨rfl, fun t ht => ?_⟩
    simp only [Event.renderTpl, Option.some.injEq] at ht
    exact ht.symm

theorem quiet_loaderCalls {tpl : Tpl} {new : List (Event Tpl Hdr Fn)}
    (h : Quiet tpl new) : loaderCalls new = [] := by
  simp only [output.loaderCalls, List.filter_eq_nil_iff]
  intro e he
  simp [(h e he).1]

theorem quiet_renderTemplates {tpl : Tpl} {new : List (Event Tpl Hdr Fn)}
    (h : Quiet tpl new) : ∀ t ∈ renderTemplates new, t = tpl := by
  intro t ht
  simp only [output.renderTemplates, List.mem_filterMap] at ht
  obtain ⟨e, he, het⟩ := ht
  exact (h e he).2 t het

theorem Process_load_error (env : Env Tpl Hdr Fn Params) (head : Hdr) (funcs : List Fn)
    (opt : Option (Options Params)) (st st1 : State Tpl Hdr Fn) (err : String)
    (h : loadTemplates env opt st = (some err, st1)) :
    Process env head funcs opt st = (.ret (none, some err), st1) := by
  simp [Process, h]

/-- After the loader step, `Process` leaves the registration as it is, makes no loader
call, and renders under that registration only; when the loader step fails it adds no
event at all. -/
theorem Process_after_load (env : Env Tpl Hdr Fn Params) (head : Hdr) (funcs : List Fn)
    (opt : Option (Options Params)) (st : State Tpl Hdr Fn) :
    (Process env head funcs opt st).2.templates = (loadTemplates env opt st).2.templates ∧
    ∃ mid, (Process env head funcs opt st).2.trace = (loadTemplates env opt st).2.trace ++ mid ∧
      Quiet (loadTemplates env opt st).2.templates mid ∧
      ((loadTemplates env opt st).1 ≠ none → mid = []) := by
  cases hl : loadTemplates env opt st with
  | mk r st1 =>
    cases r with
    | some err =>
      rw [Process_load_error env head funcs opt st st1 err hl]
      exact ⟨rfl, [], by simp, quiet_nil _, fun _ => rfl⟩
    | none =>
      cases ht : env.TempFile st1.trace with
      | error e =>
        refine ⟨by simp [Process, hl, ht], [], by simp [Process, hl, ht], quiet_nil _,
          fun _ => rfl⟩
      | ok name =>
        obtain ⟨hw1, new, hw2, hw3⟩ := writeTests_trace env bytesBuffer head funcs opt
          (st1.log (Event.tempFile name))
        have hq := renderOnly_quiet hw3
        simp only [State.log] at hw1 hw2 hq
        cases hw : writeTests env bytesBuffer head funcs opt (st1.log (Event.tempFile name)) with
        | mk r wst =>
          obtain ⟨b, st3⟩ := wst
          simp only [State.log] at hw
          rw [hw] at hw1 hw2
          simp only at hw1 hw2
          have htail : Quiet st1.templates
              ([Event.remove name, Event.close name] : List (Event Tpl Hdr Fn)) :=
            quiet_cons _ rfl rfl (quiet_cons _ rfl rfl (quiet_nil _))
          have hq1 : Quiet st1.templates (Event.tempFile name :: new) :=
            quiet_cons _ rfl rfl hq
          have himp : Quiet st1.templates
              ([Event.importsProcess name b.written] : List (Event Tpl Hdr Fn)) :=
            quiet_cons _ rfl rfl (quiet_nil _)
          have hout : Quiet st1.templates
              ([Event.importsProcess name b.written, Event.stdout (b.written ++ [10])] :
                List (Event Tpl Hdr Fn)) :=
            quiet_cons _ rfl rfl (quiet_cons _ rfl rfl (quiet_nil _))
          cases r with
          | panic msg =>
            refine ⟨by simp [Process, hl, ht, State.log, hw, deferred, hw1],
              [Event.tempFile name] ++ new ++ [Event.remove name, Event.close name], ?_,
              quiet_append hq1 htail, by simp⟩
            simp [Process, hl, ht, State.log, hw, deferred, hw2]
          | ret res =>
            cases res with
            | some err =>
              refine ⟨by simp [Process, hl, ht, State.log, hw, deferred, hw1],
                [Event.tempFile name] ++ new ++ [Event.remove name, Event.close name], ?_,
                quiet_append hq1 htail, by simp⟩
              simp [Process, hl, ht, State.log, hw, deferred, hw2]
            | none =>
              cases hi0 : env.importsProcess st3.trace name b.written with
              | ok out =>
                have hi := hi0
                rw [hw2] at hi
                simp only [List.append_assoc, List.singleton_append] at hi
                refine ⟨by simp [Process, hl, ht, State.log, hw, deferred, hw1, hi0],
                  [Event.tempFile name] ++ new ++ [Event.importsProcess name b.written] ++
                    [Event.remove name, Event.close name], ?_,
                  quiet_append (quiet_append hq1 himp) htail, by simp⟩
                simp [Process, hl, ht, State.log, hw, deferred, hw2, hi]
              | error e =>
                have hi := hi0
                rw [hw2] at hi
                simp only [List.append_assoc, List.singleton_append] at hi
                by_cases hdbg : env.Getenv "DEBUG_GENERATED" = ""
                · refine ⟨by simp [Process, hl, ht, State.log, hw, deferred, hw1, hi0, hdbg],
                    [Event.tempFile name] ++ new ++ [Event.importsProcess name b.written] ++
                      [Event.remove name, Event.close name], ?_,
                    quiet_append (quiet_append hq1 himp) htail, by simp⟩
                  simp [Process, hl, ht, State.log, hw, deferred, hw2, hi, hdbg]
                · refine ⟨by simp [Process, hl, ht, State.log, hw, deferred, hw1, hi0, hdbg],
                    [Event.tempFile name] ++ new ++ [Event.importsProcess name b.written,
                      Event.stdout (b.written ++ [10])] ++
                      [Event.remove name, Event.close name], ?_,
                    quiet_append (quiet_append hq1 hout) htail, by simp⟩
                  simp [Process, hl, ht, State.log, hw, deferred, hw2, hi, hdbg]

theorem loaderCalls_loaderOf (sel : Selection) :
    loaderCalls (loaderOf sel : List (Event Tpl Hdr Fn)) = loaderOf sel := by
  cases sel <;> rfl

theorem renderCalls_loaderOf (sel : Selection) :
    renderCalls (loaderOf sel : List (Event Tpl Hdr Fn)) = [] := by
  cases sel <;> rfl

theorem renderTemplates_loaderOf (sel : Selection) :
    renderTemplates (loaderOf sel : List (Event Tpl Hdr Fn)) = [] := by
  cases sel <;> rfl

theorem stdoutWrites_loaderOf (sel : Selection) :
    stdoutWrites (loaderOf sel : List (Event Tpl Hdr Fn)) = [] := by
  cases sel <;> rfl

theorem length_loaderOf (sel : Selection) :
    (loaderOf sel : List (Event Tpl Hdr Fn)).length ≤ 1 := by
  cases sel <;> simp [loaderOf]

theorem selection_chain (o : Options Params) :
    (loaderOf (selection (some o)) : List (Event Tpl Hdr Fn)) =
      (if o.TemplateDir ≠ "" then [Event.loadCustomTemplates o.TemplateDir]
       else if o.Template ≠ "" then [Event.loadCustomTemplatesName o.Template]
       else
         match o.TemplateData with
         | some data => [Event.loadFromData data]
         | none => []) := by
  by_cases hd : o.TemplateDir = ""
  · by_cases hn : o.Template = ""
    · cases hdata : o.TemplateData <;> simp [selection, loaderOf, hd, hn, hdata]
    · simp [selection, loaderOf, hd, hn]
  · simp [selection, loaderOf, hd]

theorem loadTemplates_dir_error (env : Env Tpl Hdr Fn Params) (o : Options Params)
    (st : State Tpl Hdr Fn) (e : String) (hd : o.TemplateDir ≠ "")
    (he : (env.LoadCustomTemplates st.templates o.TemplateDir).2 = some e) :
    (loadTemplates env (some o) st).1 = some ("loading custom templates: " ++ e) := by
  simp [loadTemplates, hd, he, Errorf_loading_dir]

theorem loadTemplates_name_error (env : Env Tpl Hdr Fn Params) (o : Options Params)
    (st : State Tpl Hdr Fn) (e : String) (hd : o.TemplateDir = "") (hn : o.Template ≠ "")
    (he : (env.LoadCustomTemplatesName st.templates o.Template).2 = some e) :
    (loadTemplates env (some o) st).1 = some ("loading custom templates of name: " ++ e) := by
  simp [loadTemplates, hd, hn, he, Errorf_loading_name]

/-- When the loader step fails, `Process` returns its error and adds no event after the
loader call: nothing is rendered. -/
theorem Process_loader_failure (env : Env Tpl Hdr Fn Params) (head : Hdr) (funcs : List Fn)
    (opt : Option (Options Params)) (st : State Tpl Hdr Fn) (msg : String)
    (h : (loadTemplates env opt st).1 = some msg) :
    (Process env head funcs opt st).1 = .ret (none, some msg) ∧
    (Process env head funcs opt st).2.trace = st.trace ++ loaderOf (selection opt) := by
  have hl : loadTemplates env opt st = (some msg, (loadTemplates env opt st).2) :=
    Prod.ext h rfl
  rw [Process_load_error env head funcs opt st _ msg hl]
  exact ⟨rfl, loadTemplates_trace env opt st⟩

/-- C6: for non-nil options `Process` makes at most one loader call, chosen by the
precedence directory, named set, embedded data, none: `LoadCustomTemplates(TemplateDir)` if
TemplateDir is non-empty, otherwise `LoadCustomTemplatesName(Template)` if Template is
non-empty, otherwise `LoadFromData(TemplateData)` if TemplateData is non-nil, otherwise no
loader. With TemplateDir and Template both set only the directory loader is called, and when
a loader fails `Process` returns its error and there is no render call. -/
theorem C6_loader_precedence (env : Env Tpl Hdr Fn Params) (head : Hdr) (funcs : List Fn)
    (o : Options Params) (st : State Tpl Hdr Fn) :
    ∃ new, (Process env head funcs (some o) st).2.trace = st.trace ++ new ∧
      loaderCalls new =
        (if o.TemplateDir ≠ "" then [Event.loadCustomTemplates o.TemplateDir]
         else if o.Template ≠ "" then [Event.loadCustomTemplatesName o.Template]
         else
           match o.TemplateData with
           | some data => [Event.loadFromData data]
           | none => []) ∧
      loaderCalls new = loaderOf (selection (some o)) ∧
      (loaderCalls new).length ≤ 1 ∧
      (o.TemplateDir ≠ "" → o.Template ≠ "" →
        loaderCalls new = [Event.loadCustomTemplates o.TemplateDir]) ∧
      (∀ e, o.TemplateDir ≠ "" →
        (env.LoadCustomTemplates st.templates o.TemplateDir).2 = some e →
        (Process env head funcs (some o) st).1 =
          .ret (none, some ("loading custom templates: " ++ e)) ∧ renderCalls new = []) ∧
      (∀ e, o.TemplateDir = "" → o.Template ≠ "" →
        (env.LoadCustomTemplatesName st.templates o.Template).2 = some e →
        (Process env head funcs (some o) st).1 =
          .ret (none, some ("loading custom templates of name: " ++ e)) ∧
        renderCalls new = []) := by
  obtain ⟨_, mid, h1, h2, h3⟩ := Process_after_load env head funcs (some o) st
  rw [loadTemplates_trace] at h1
  have hcalls : loaderCalls (loaderOf (selection (some o)) ++ mid) =
      (loaderOf (selection (some o)) : List (Event Tpl Hdr Fn)) := by
    have hsplit : loaderCalls (loaderOf (selection (some o)) ++ mid) =
        loaderCalls (loaderOf (selection (some o)) : List (Event Tpl Hdr Fn)) ++
          loaderCalls mid := by
      simp [loaderCalls]
    rw [hsplit, quiet_loaderCalls h2, loaderCalls_loaderOf, List.append_nil]
  refine ⟨loaderOf (selection (some o)) ++ mid, by rw [h1, List.append_assoc], ?_, hcalls, ?_,
    ?_, ?_, ?_⟩
  · rw [hcalls, selection_chain]
  · rw [hcalls]
    exact length_loaderOf _
  · intro hd _
    rw [hcalls, selection_chain, if_pos hd]
  · intro e hd he
    have hfail := loadTemplates_dir_error env o st e hd he
    have hmid : mid = [] := h3 (by rw [hfail]; simp)
    refine ⟨(Process_loader_failure env head funcs (some o) st _ hfail).1, ?_⟩
    rw [hmid, List.append_nil, renderCalls_loaderOf]
  · intro e hd hn he
    have hfail := loadTemplates_name_error env o st e hd hn he
    have hmid : mid = [] := h3 (by rw [hfail]; simp)
    refine ⟨(Process_loader_failure env head funcs (some o) st _ hfail).1, ?_⟩
    rw [hmid, List.append_nil, renderCalls_loaderOf]

theorem loaded_of_replaces (env : Env Tpl Hdr Fn Params) (h : Replaces env)
    (sel : Selection) (hsel : sel ≠ .Default) (t base : Tpl) :
    loaded env sel t = loaded env sel base := by
  cases sel with
  | Default => exact absurd rfl hsel
  | NamedSet name => exact h.2.1 t base name
  | Directory path => exact h.1 t base path
  | EmbeddedData blobs => exact h.2.2 t base blobs

/-- C8 (amended): in two successive invocations of `Process`, every render call of the
second is made under the registration that the loader of the second selection yields from
the registration the first invocation left. When the second invocation selects the Default
set no loader runs and that registration is the one left by the first invocation; when it
selects a directory, a named set or embedded data and the loaders replace the registration,
it does not depend on what the first invocation left. The first invocation leaves the
registration that the loader of its own selection yields. -/
theorem C8_registration_at_render (env : Env Tpl Hdr Fn Params) (head1 head2 : Hdr)
    (funcs1 funcs2 : List Fn) (opt1 opt2 : Option (Options Params)) (st0 : State Tpl Hdr Fn) :
    ∃ new,
      (Process env head2 funcs2 opt2 (Process env head1 funcs1 opt1 st0).2).2.trace =
        (Process env head1 funcs1 opt1 st0).2.trace ++ new ∧
      (∀ t ∈ renderTemplates new,
        t = loaded env (selection opt2) (Process env head1 funcs1 opt1 st0).2.templates) ∧
      (selection opt2 = .Default →
        loaderCalls new = [] ∧
        ∀ t ∈ renderTemplates new, t = (Process env head1 funcs1 opt1 st0).2.templates) ∧
      (Replaces env → selection opt2 ≠ .Default →
        ∀ base, ∀ t ∈ renderTemplates new, t = loaded env (selection opt2) base) ∧
      (Process env head1 funcs1 opt1 st0).2.templates =
        loaded env (selection opt1) st0.templates := by
  obtain ⟨_, mid, h1, h2, _⟩ := Process_after_load env head2 funcs2 opt2
    (Process env head1 funcs1 opt1 st0).2
  rw [loadTemplates_trace] at h1
  rw [loadTemplates_templates] at h2
  have hren : ∀ t ∈ renderTemplates (loaderOf (selection opt2) ++ mid),
      t = loaded env (selection opt2) (Process env head1 funcs1 opt1 st0).2.templates := by
    intro t ht
    have hsplit : renderTemplates (loaderOf (selection opt2) ++ mid) =
        renderTemplates (loaderOf (selection opt2) : List (Event Tpl Hdr Fn)) ++
          renderTemplates mid := by
      simp [renderTemplates]
    rw [hsplit, renderTemplates_loaderOf, List.nil_append] at ht
    exact quiet_renderTemplates h2 t ht
  refine ⟨loaderOf (selection opt2) ++ mid, by rw [h1, List.append_assoc], hren, ?_, ?_, ?_⟩
  · intro hdef
    constructor
    · have hsplit : loaderCalls (loaderOf (selection opt2) ++ mid) =
          loaderCalls (loaderOf (selection opt2) : List (Event Tpl Hdr Fn)) ++
            loaderCalls mid := by
        simp [loaderCalls]
      rw [hsplit, quiet_loaderCalls h2, hdef]
      rfl
    · intro t ht
      have := hren t ht
      rw [hdef] at this
      exact this
  · intro hrep hsel base t ht
    rw [hren t ht]
    exact loaded_of_replaces env hrep _ hsel _ base
  · rw [(Process_after_load env head1 funcs1 opt1 st0).1, loadTemplates_templates]

theorem stdoutWrites_append (a b : List (Event Tpl Hdr Fn)) :
    stdoutWrites (a ++ b) = stdoutWrites a ++ stdoutWrites b := by
  simp [stdoutWrites]

/-- C9: when the loader step, the temporary file and the composition succeed and
`imports.Process` fails with error `e`, `Process` returns nil bytes and the error whose
message is "imports.Process: " followed by `e` and the hint on DEBUG_GENERATED; the rough
bytes, followed by a newline, are printed on standard output if and only if the variable
DEBUG_GENERATED is non-empty, and nothing is printed there when it is empty or unset. -/
theorem C9_normalization_failure (env : Env Tpl Hdr Fn Params) (head : Hdr) (funcs : List Fn)
    (opt : Option (Options Params)) (st st1 st3 : State Tpl Hdr Fn) (name : String)
    (b : Writer) (e : String)
    (hload : loadTemplates env opt st = (none, st1))
    (htmp : env.TempFile st1.trace = .ok name)
    (hwrite : writeTests env bytesBuffer head funcs opt (st1.log (Event.tempFile name)) =
      (.ret none, b, st3))
    (himp : env.importsProcess st3.trace name b.written = .error e) :
    (Process env head funcs opt st).1 = .ret (none, some ("imports.Process: " ++ e ++
      "\nYou can set DEBUG_GENERATED=1 to print to stdout the intermediate generated code before it is gofmt'd.")) ∧
    ∃ new, (Process env head funcs opt st).2.trace = st.trace ++ new ∧
      (env.Getenv "DEBUG_GENERATED" ≠ "" → stdoutWrites new = [b.written ++ [10]]) ∧
      (env.Getenv "DEBUG_GENERATED" = "" → stdoutWrites new = []) ∧
      (b.written ++ [10] ∈ stdoutWrites new ↔ env.Getenv "DEBUG_GENERATED" ≠ "") := by
  have hst1 : st1.trace = st.trace ++ loaderOf (selection opt) := by
    have := loadTemplates_trace env opt st
    rw [hload] at this
    exact this
  obtain ⟨_, rnew, hr1, hr2⟩ := writeTests_trace env bytesBuffer head funcs opt
    (st1.log (Event.tempFile name))
  rw [hwrite] at hr1
  simp only [State.log] at hr1
  have hquiet : stdoutWrites (loaderOf (selection opt) ++ [Event.tempFile name] ++ rnew ++
      [Event.importsProcess name b.written] : List (Event Tpl Hdr Fn)) = [] := by
    simp only [stdoutWrites_append, stdoutWrites_loaderOf, renderOnly_stdoutWrites hr2]
    rfl
  constructor
  · simp [Process, hload, htmp, hwrite, himp, Errorf_imports]
  · by_cases hdbg : env.Getenv "DEBUG_GENERATED" = ""
    · refine ⟨loaderOf (selection opt) ++ [Event.tempFile name] ++ rnew ++
        [Event.importsProcess name b.written] ++ [Event.remove name, Event.close name],
        ?_, ?_, ?_, ?_⟩
      · simp only [Process, hload, htmp, hwrite, himp]
        simp only [hdbg, deferred, State.log, ne_eq, not_true_eq_false, not_false_eq_true,
          if_true, if_false]
        simp [hr1, hst1]
      · intro h
        exact absurd hdbg h
      · intro _
        rw [stdoutWrites_append, hquiet]
        rfl
      · rw [stdoutWrites_append, hquiet]
        simp [stdoutWrites, Event.stdoutData, hdbg]
    · refine ⟨loaderOf (selection opt) ++ [Event.tempFile name] ++ rnew ++
        [Event.importsProcess name b.written] ++
        [Event.stdout (b.written ++ [10]), Event.remove name, Event.close name],
        ?_, ?_, ?_, ?_⟩
      · simp only [Process, hload, htmp, hwrite, himp]
        simp only [hdbg, deferred, State.log, ne_eq, not_true_eq_false, not_false_eq_true,
          if_true, if_false]
        simp [hr1, hst1]
      · intro _
        rw [stdoutWrites_append, hquiet]
        rfl
      · intro h
        exact absurd h hdbg
      · rw [stdoutWrites_append, hquiet]
        simp [stdoutWrites, Event.stdoutData, hdbg]

end

/-- Witness of C6: the directory `missing` is set together with a named set; only the
directory loader is called, it fails, and nothing is rendered. -/
theorem C6_loader_precedence_witness :
    ∃ new, (Process demoEnv "foo" ["Add"] (some demoMissingOptions) demoState).2.trace =
        demoState.trace ++ new ∧
      loaderCalls new = [Event.loadCustomTemplates "missing"] ∧
      (Process demoEnv "foo" ["Add"] (some demoMissingOptions) demoState).1 =
        .ret (none, some ("loading custom templates: " ++ "no such file or directory")) ∧
      renderCalls new = [] := by
  obtain ⟨new, h1, _, _, _, h5, h6, _⟩ :=
    C6_loader_precedence demoEnv "foo" ["Add"] demoMissingOptions demoState
  exact ⟨new, h1, h5 (by decide) (by decide),
    (h6 "no such file or directory" (by decide) rfl).1,
    (h6 "no such file or directory" (by decide) rfl).2⟩

/-- Witness of C7: a header and the functions `Add` and `Sub`, in that order and
swapped. -/
theorem C7_writeTests_order_witness :
    ((writeTests demoEnv bytesBuffer "foo" ["Add", "Sub"] (some demoOptions) demoState).2.1.written
        = [104, 65, 67] ∧
      (writeTests demoEnv bytesBuffer "foo" ["Add", "Sub"] (some demoOptions) demoState).2.2.trace
        = [Event.renderHeader "default" "foo", Event.renderTestFunction "default" "Add",
            Event.renderTestFunction "default" "Sub"]) ∧
    (writeTests demoEnv bytesBuffer "foo" ["Sub", "Add"] (some demoOptions) demoState).2.1.written
      = [104, 67, 65] := by
  have h := C7_writeTests_order demoEnv bytesBuffer "foo" ["Add", "Sub"] (some demoOptions)
    demoState rfl (by
      intro fn hfn
      simp only [List.mem_cons, List.mem_singleton, List.not_mem_nil, or_false] at hfn
      rcases hfn with rfl | rfl <;> exact ⟨_, rfl⟩)
  exact ⟨h.1, h.2 [1, 0] (by decide)⟩

theorem demoEnv_replaces : Replaces demoEnv :=
  ⟨fun _ _ _ => rfl, fun _ _ _ => rfl, fun _ _ _ => rfl⟩

/-- Witness of C8 (amended): after a first invocation that loaded the directory `custom`, a
second invocation with nil options renders under the registration of that directory, and
a second invocation that selects the named set `testify` renders under that set. -/
theorem C8_registration_at_render_witness :
    (∃ new, (Process demoEnv "foo" ["Add"] none
          (Process demoEnv "foo" ["Add"] (some demoDirOptions) demoState).2).2.trace =
        (Process demoEnv "foo" ["Add"] (some demoDirOptions) demoState).2.trace ++ new ∧
      loaderCalls new = [] ∧ ∀ t ∈ renderTemplates new, t = "dir:custom") ∧
    (∃ new, (Process demoEnv "foo" ["Add"] (some demoNamedOptions)
          (Process demoEnv "foo" ["Add"] (some demoDirOptions) demoState).2).2.trace =
        (Process demoEnv "foo" ["Add"] (some demoDirOptions) demoState).2.trace ++ new ∧
      ∀ t ∈ renderTemplates new, t = "name:testify") := by
  constructor
  · obtain ⟨new, h1, _, h3, _, _⟩ := C8_registration_at_render demoEnv "foo" "foo" ["Add"]
      ["Add"] (some demoDirOptions) none demoState
    exact ⟨new, h1, (h3 rfl).1, fun t ht => (h3 rfl).2 t ht⟩
  · obtain ⟨new, h1, _, _, h4, _⟩ := C8_registration_at_render demoEnv "foo" "foo" ["Add"]
      ["Add"] (some demoDirOptions) (some demoNamedOptions) demoState
    exact ⟨new, h1, fun t ht =>
      h4 demoEnv_replaces (by intro h; cases h) "default" t ht⟩

/-- C8 as stated fails when the second invocation selects the Default set: after a first
invocation that loaded the directory `custom`, the second invocation calls no loader,
renders under the registration of that directory and returns other bytes than the same
invocation does in a fresh process, where it renders under the default registration. -/
theorem C8_counterexample_default_after_directory :
    selection (some demoOptions) = Selection.Default ∧
    demoAfterDir.templates = "dir:custom" ∧
    Process demoEnv "foo" ["Add"] (some demoOptions) demoAfterDir =
      (.ret (some [72, 65], none),
        { templates := "dir:custom",
          trace := demoAfterDir.trace ++
            [Event.tempFile "/tmp/gotests_1", Event.renderHeader "dir:custom" "foo",
              Event.renderTestFunction "dir:custom" "Add",
              Event.importsProcess "/tmp/gotests_1" [72, 65],
              Event.remove "/tmp/gotests_1", Event.close "/tmp/gotests_1"] }) ∧
    Process demoEnv "foo" ["Add"] (some demoOptions) demoState =
      (.ret (some [104, 65], none),
        { templates := "default",
          trace := demoState.trace ++
            [Event.tempFile "/tmp/gotests_1", Event.renderHeader "default" "foo",
              Event.renderTestFunction "default" "Add",
              Event.importsProcess "/tmp/gotests_1" [104, 65],
              Event.remove "/tmp/gotests_1", Event.close "/tmp/gotests_1"] }) :=
  ⟨rfl, rfl, rfl, rfl⟩

/-- Witness of C9: the function `Bad` makes the normaliser fail, once with
DEBUG_GENERATED unset and once with DEBUG_GENERATED set to `1`. -/
theorem C9_normalization_failure_witness :
    ((Process demoEnv "foo" ["Bad"] (some demoOptions) demoState).1 =
        .ret (none, some ("imports.Process: " ++ "expected declaration" ++
          "\nYou can set DEBUG_GENERATED=1 to print to stdout the intermediate generated code before it is gofmt'd.")) ∧
      ∃ new, (Process demoEnv "foo" ["Bad"] (some demoOptions) demoState).2.trace =
        demoState.trace ++ new ∧ stdoutWrites new = []) ∧
    (∃ new, (Process demoEnvDebug "foo" ["Bad"] (some demoOptions) demoState).2.trace =
        demoState.trace ++ new ∧ stdoutWrites new = [[104, 66, 10]]) := by
  constructor
  · obtain ⟨hres, new, h1, _, h3, _⟩ := C9_normalization_failure demoEnv "foo" ["Bad"]
      (some demoOptions) demoState demoState demoComposed "/tmp/gotests_1" demoBuffer
      "expected declaration" rfl rfl rfl rfl
    exact ⟨hres, new, h1, h3 rfl⟩
  · obtain ⟨_, new, h1, h2, _, _⟩ := C9_normalization_failure demoEnvDebug "foo" ["Bad"]
      (some demoOptions) demoState demoState demoComposed "/tmp/gotests_1" demoBuffer
      "expected declaration" rfl rfl rfl rfl
    exact ⟨new, h1, h2 (by decide)⟩

end output
